import Mathlib

/-!
Vertex attribute format negotiation for the D3D9 back end.

A shallow embedding of the vertex-format part of
`src/libANGLE/renderer/d3d/d3d9/formatutils9.cpp`: the template family that maps a GL vertex
attribute type, normalized flag and component count to a D3D9 declaration type, and the
capability-gated table `GetVertexFormatInfo` serves descriptors from.

Class templates become functions of their template arguments.  A template that is only given
for some arguments (`VertexTypeFlags`, `VertexTypeMapping`, `GLToCType`) returns `none`
elsewhere, which is where the C++ program would not compile.
-/

namespace d3d9

/-! ## Types and constants of the GL and Direct3D 9 headers -/

/-- The type `GLenum`: an unsigned 32-bit enumerant. -/
abbrev GLenum := Nat

/-- The type `DWORD`: an unsigned 32-bit word; only bitwise AND and comparisons are applied to
it. -/
abbrev DWORD := Nat

/-! The GL enumerants this file uses, with their values in the Khronos GL headers. -/

def GL_NONE : GLenum := 0
def GL_BYTE : GLenum := 0x1400
def GL_UNSIGNED_BYTE : GLenum := 0x1401
def GL_SHORT : GLenum := 0x1402
def GL_UNSIGNED_SHORT : GLenum := 0x1403
def GL_INT : GLenum := 0x1404
def GL_UNSIGNED_INT : GLenum := 0x1405
def GL_FLOAT : GLenum := 0x1406
def GL_FIXED : GLenum := 0x140C
def GL_UNSIGNED_NORMALIZED : GLenum := 0x8C17
def GL_SIGNED_NORMALIZED : GLenum := 0x8F9C

/-- The `D3DDECLTYPE` enumeration of the Direct3D 9 headers, in declaration order. -/
inductive D3DDECLTYPE where
  | D3DDECLTYPE_FLOAT1
  | D3DDECLTYPE_FLOAT2
  | D3DDECLTYPE_FLOAT3
  | D3DDECLTYPE_FLOAT4
  | D3DDECLTYPE_D3DCOLOR
  | D3DDECLTYPE_UBYTE4
  | D3DDECLTYPE_SHORT2
  | D3DDECLTYPE_SHORT4
  | D3DDECLTYPE_UBYTE4N
  | D3DDECLTYPE_SHORT2N
  | D3DDECLTYPE_SHORT4N
  | D3DDECLTYPE_USHORT2N
  | D3DDECLTYPE_USHORT4N
  | D3DDECLTYPE_UDEC3
  | D3DDECLTYPE_DEC3N
  | D3DDECLTYPE_FLOAT16_2
  | D3DDECLTYPE_FLOAT16_4
  | D3DDECLTYPE_UNUSED
  deriving DecidableEq, Repr

open D3DDECLTYPE

/-! The `D3DDTCAPS_*` bits of `D3DCAPS9::DeclTypes` that `VertexTypeFlags` uses, with their
values in the Direct3D 9 headers. -/

def D3DDTCAPS_UBYTE4 : DWORD := 0x00000001
def D3DDTCAPS_UBYTE4N : DWORD := 0x00000002
def D3DDTCAPS_SHORT2N : DWORD := 0x00000004
def D3DDTCAPS_SHORT4N : DWORD := 0x00000008
def D3DDTCAPS_USHORT2N : DWORD := 0x00000010
def D3DDTCAPS_USHORT4N : DWORD := 0x00000020

/-- The C types that the GL typedefs and the D3D vertex types stand for. -/
inductive CType where
  | signed_char
  | unsigned_char
  | short
  | unsigned_short
  | int
  | unsigned_int
  | float
  deriving DecidableEq, Repr

/-- The `sizeof` of each C type, in bytes. -/
def CType.sizeof : CType → Nat
  | .signed_char => 1
  | .unsigned_char => 1
  | .short => 2
  | .unsigned_short => 2
  | .int => 4
  | .unsigned_int => 4
  | .float => 4

/-! ## `GetDeclTypeComponentType` -/

/-- The function `GetDeclTypeComponentType`; the `default` label returns `GL_NONE` after
`UNREACHABLE()`. -/
def GetDeclTypeComponentType (declType : D3DDECLTYPE) : GLenum :=
  match declType with
  | D3DDECLTYPE_FLOAT1 => GL_FLOAT
  | D3DDECLTYPE_FLOAT2 => GL_FLOAT
  | D3DDECLTYPE_FLOAT3 => GL_FLOAT
  | D3DDECLTYPE_FLOAT4 => GL_FLOAT
  | D3DDECLTYPE_UBYTE4 => GL_UNSIGNED_INT
  | D3DDECLTYPE_SHORT2 => GL_INT
  | D3DDECLTYPE_SHORT4 => GL_INT
  | D3DDECLTYPE_UBYTE4N => GL_UNSIGNED_NORMALIZED
  | D3DDECLTYPE_SHORT4N => GL_SIGNED_NORMALIZED
  | D3DDECLTYPE_USHORT4N => GL_UNSIGNED_NORMALIZED
  | D3DDECLTYPE_SHORT2N => GL_SIGNED_NORMALIZED
  | D3DDECLTYPE_USHORT2N => GL_UNSIGNED_NORMALIZED
  | _ => GL_NONE

/-! ## Attribute format conversion -/

/-- The enumerator `NUM_GL_VERTEX_ATTRIB_TYPES`. -/
def NUM_GL_VERTEX_ATTRIB_TYPES : Nat := 6

/-- GLToCType maps from GL type (as GLenum) to the C typedef: `GLbyte`, `GLubyte`, `GLshort`,
`GLushort`, `GLuint` and `GLfloat`. -/
def GLToCType (GLType : GLenum) : Option CType :=
  if GLType = GL_BYTE then some .signed_char
  else if GLType = GL_UNSIGNED_BYTE then some .unsigned_char
  else if GLType = GL_SHORT then some .short
  else if GLType = GL_UNSIGNED_SHORT then some .unsigned_short
  else if GLType = GL_FIXED then some .unsigned_int
  else if GLType = GL_FLOAT then some .float
  else none

/-- This differs from D3DDECLTYPE in that it is unsized. (Size expansion is applied last.) -/
inductive D3DVertexType where
  | D3DVT_FLOAT
  | D3DVT_SHORT
  | D3DVT_SHORT_NORM
  | D3DVT_UBYTE
  | D3DVT_UBYTE_NORM
  | D3DVT_USHORT_NORM
  deriving DecidableEq, Repr

open D3DVertexType

/-- D3DToCType maps from D3D vertex type to the corresponding C type. -/
def D3DToCType (D3DType : D3DVertexType) : CType :=
  match D3DType with
  | D3DVT_FLOAT => .float
  | D3DVT_SHORT => .short
  | D3DVT_SHORT_NORM => .short
  | D3DVT_UBYTE => .unsigned_char
  | D3DVT_UBYTE_NORM => .unsigned_char
  | D3DVT_USHORT_NORM => .unsigned_short

/-- The two members every widener provides. -/
structure Widen where
  initialWidth : Nat
  finalWidth : Nat
  deriving DecidableEq, Repr

/-- Modelled from the spec: `NoWiden` of `vertexconversion.h`, which is not among the sources.
"float: 1–4 unconstrained": the count is kept. -/
def NoWiden (size : Nat) : Widen :=
  { initialWidth := size, finalWidth := size }

/-- Modelled from the spec: `WidenToEven` of `vertexconversion.h`, which is not among the
sources. "short-family: widen odd/3 counts up to the next even count, i.e. 1→2, 3→4". -/
def WidenToEven (size : Nat) : Widen :=
  { initialWidth := size, finalWidth := if size % 2 = 1 then size + 1 else size }

/-- Modelled from the spec: `WidenToFour` of `vertexconversion.h`, which is not among the
sources. "byte-family: widen any count below 4 up to 4". -/
def WidenToFour (size : Nat) : Widen :=
  { initialWidth := size, finalWidth := if size < 4 then 4 else size }

/-- Encode the type/size combinations that D3D permits. For each type/size it expands to a
widener that will provide the appropriate final size. -/
def WidenRule (type : D3DVertexType) (size : Nat) : Widen :=
  match type with
  | D3DVT_FLOAT => NoWiden size
  | D3DVT_SHORT => WidenToEven size
  | D3DVT_SHORT_NORM => WidenToEven size
  | D3DVT_UBYTE => WidenToFour size
  | D3DVT_UBYTE_NORM => WidenToFour size
  | D3DVT_USHORT_NORM => WidenToEven size

/-- The members of `VertexTypeFlagsHelper`. -/
structure VertexTypeFlagsHelper where
  capflag : DWORD
  declflag : D3DDECLTYPE
  deriving DecidableEq, Repr

/-- VertexTypeFlags encodes the D3DCAPS9::DeclType flag and vertex declaration flag for each
D3D vertex type & size combination. -/
def VertexTypeFlags (d3dtype : D3DVertexType) (size : Nat) : Option VertexTypeFlagsHelper :=
  match d3dtype, size with
  | D3DVT_FLOAT, 1 => some ⟨0, D3DDECLTYPE_FLOAT1⟩
  | D3DVT_FLOAT, 2 => some ⟨0, D3DDECLTYPE_FLOAT2⟩
  | D3DVT_FLOAT, 3 => some ⟨0, D3DDECLTYPE_FLOAT3⟩
  | D3DVT_FLOAT, 4 => some ⟨0, D3DDECLTYPE_FLOAT4⟩
  | D3DVT_SHORT, 2 => some ⟨0, D3DDECLTYPE_SHORT2⟩
  | D3DVT_SHORT, 4 => some ⟨0, D3DDECLTYPE_SHORT4⟩
  | D3DVT_SHORT_NORM, 2 => some ⟨D3DDTCAPS_SHORT2N, D3DDECLTYPE_SHORT2N⟩
  | D3DVT_SHORT_NORM, 4 => some ⟨D3DDTCAPS_SHORT4N, D3DDECLTYPE_SHORT4N⟩
  | D3DVT_UBYTE, 4 => some ⟨D3DDTCAPS_UBYTE4, D3DDECLTYPE_UBYTE4⟩
  | D3DVT_UBYTE_NORM, 4 => some ⟨D3DDTCAPS_UBYTE4N, D3DDECLTYPE_UBYTE4N⟩
  | D3DVT_USHORT_NORM, 2 => some ⟨D3DDTCAPS_USHORT2N, D3DDECLTYPE_USHORT2N⟩
  | D3DVT_USHORT_NORM, 4 => some ⟨D3DDTCAPS_USHORT4N, D3DDECLTYPE_USHORT4N⟩
  | _, _ => none

/-- The members of `VertexTypeMappingBase`; `Fallback` defaults to `Preferred`. -/
structure VertexTypeMappingBase where
  preferred : D3DVertexType
  fallback : D3DVertexType
  deriving DecidableEq, Repr

/-- VertexTypeMapping maps GL type & normalized flag to preferred and fallback D3D vertex
types (as D3DVertexType enums). -/
def VertexTypeMapping (GLtype : GLenum) (normalized : Bool) : Option VertexTypeMappingBase :=
  if GLtype = GL_BYTE ∧ normalized = false then some ⟨D3DVT_SHORT, D3DVT_SHORT⟩
  else if GLtype = GL_BYTE ∧ normalized = true then some ⟨D3DVT_FLOAT, D3DVT_FLOAT⟩
  else if GLtype = GL_UNSIGNED_BYTE ∧ normalized = false then some ⟨D3DVT_UBYTE, D3DVT_FLOAT⟩
  else if GLtype = GL_UNSIGNED_BYTE ∧ normalized = true then some ⟨D3DVT_UBYTE_NORM, D3DVT_FLOAT⟩
  else if GLtype = GL_SHORT ∧ normalized = false then some ⟨D3DVT_SHORT, D3DVT_SHORT⟩
  else if GLtype = GL_SHORT ∧ normalized = true then some ⟨D3DVT_SHORT_NORM, D3DVT_FLOAT⟩
  else if GLtype = GL_UNSIGNED_SHORT ∧ normalized = false then some ⟨D3DVT_FLOAT, D3DVT_FLOAT⟩
  else if GLtype = GL_UNSIGNED_SHORT ∧ normalized = true then
    some ⟨D3DVT_USHORT_NORM, D3DVT_FLOAT⟩
  else if GLtype = GL_FIXED then some ⟨D3DVT_FLOAT, D3DVT_FLOAT⟩
  else if GLtype = GL_FLOAT then some ⟨D3DVT_FLOAT, D3DVT_FLOAT⟩
  else none

/-- Modelled from the spec: the conversion operators of `vertexconversion.h`, which is not among
the sources, as `ConversionRule` names them with their template arguments: `Cast<FromT, ToT>`,
`Normalize<T>` and `FixedToFloat<FromType, ScaleBits>`. They are the spec's numeric rules Cast,
Normalize and FixedToFloat; Identity is Cast between equal types. -/
inductive Conversion where
  | Cast (FromT ToT : CType)
  | Normalize (T : CType)
  | FixedToFloat (FromType : CType) (ScaleBits : Nat)
  deriving DecidableEq, Repr

/-- Modelled from the spec: the `identity` member of the conversion operators of
`vertexconversion.h`, which is not among the sources. "all other pairs use Cast, which
degenerates to Identity when source and destination types are identical"; the source comment on
`ConversionRule` says the same ("Cast<T,T> knows it's an identity mapping"). -/
def Conversion.identity : Conversion → Bool
  | .Cast FromT ToT => decide (FromT = ToT)
  | .Normalize _ => false
  | .FixedToFloat _ _ => false

/-- Modelled from the spec: the `OutputType` member of the conversion operators of
`vertexconversion.h`, which is not among the sources. Cast produces its destination type;
Normalize and FixedToFloat "produce a float". -/
def Conversion.OutputType : Conversion → CType
  | .Cast _ ToT => ToT
  | .Normalize _ => .float
  | .FixedToFloat _ _ => .float

/-- Given a GL type & norm flag and a D3D type, ConversionRule provides the type conversion rule
(Cast, Normalize, Identity, FixedToFloat). The two full specializations for `GL_FIXED` match
ahead of the normalize-to-float rule, which matches ahead of the generic Cast. -/
def ConversionRule (fromType : GLenum) (normalized : Bool) (toType : D3DVertexType) :
    Option Conversion :=
  if fromType = GL_FIXED ∧ toType = D3DVT_FLOAT then some (.FixedToFloat .int 16)
  else if normalized = true ∧ toType = D3DVT_FLOAT then (GLToCType fromType).map .Normalize
  else (GLToCType fromType).map (fun c => .Cast c (D3DToCType toType))

/-- Modelled from the spec: the default value rules of `vertexconversion.h`, which is not among
the sources, as `DefaultVertexValues` names them with their template argument:
`SimpleDefaultValues<T>` and `NormalizedDefaultValues<T>`. -/
inductive DefaultValueRule where
  | SimpleDefaultValues (T : CType)
  | NormalizedDefaultValues (T : CType)
  deriving DecidableEq, Repr

/-- The second stage of the construction: the rule by the normalized flag alone. -/
def DefaultVertexValuesStage2 (T : CType) (normalized : Bool) : DefaultValueRule :=
  match normalized with
  | true => .NormalizedDefaultValues T
  | false => .SimpleDefaultValues T

/-- Work out the default value rule for a D3D type (expressed as the C type). A 2-stage
construction is used because float must use SimpleDefaultValues (i.e. 0/1) whether it is
normalized or not. -/
def DefaultVertexValues (T : CType) (normalized : Bool) : DefaultValueRule :=
  if T = .float then .SimpleDefaultValues .float
  else DefaultVertexValuesStage2 T normalized

/-- Modelled from the spec: the value `SimpleDefaultValues` (of `vertexconversion.h`, not among
the sources) gives to a padded component at the 0-based position `i`: "component 4, if padded,
is always the multiplicative identity 1.0; components 1–3, if padded, are 0". -/
def SimpleDefaultValues_pad (i : Nat) : Nat :=
  if i = 3 then 1 else 0

/-- Policy rules for use with Converter, to choose whether to use the preferred or fallback
conversion. The fallback conversion produces an output that all D3D9 devices must support. -/
inductive PreferenceRule where
  | UsePreferred
  | UseFallback
  deriving DecidableEq, Repr

/-- The `type` member of `UsePreferred<T>` and `UseFallback<T>`. -/
def PreferenceRule.type (rule : PreferenceRule) (T : VertexTypeMappingBase) : D3DVertexType :=
  match rule with
  | .UsePreferred => T.preferred
  | .UseFallback => T.fallback

/-- An instantiation of `VertexDataConverter<InT, WidenRule, Converter, DefaultValueRule>`,
given by its four template arguments. Its static member function `convertArray` is what a
`VertexCopyFunction` points to, so two function pointers are equal when the instantiations
are. -/
structure VertexDataConverter where
  InT : CType
  widenRule : Widen
  converter : Conversion
  defaultValueRule : DefaultValueRule
  deriving DecidableEq, Repr

/-- Modelled from the spec: the `identity` member of `VertexDataConverter` (of
`vertexconversion.h`, not among the sources). "when input and native encodings are
bit-identical, it is the identity copy": the conversion is an identity and no component is
added. -/
def VertexDataConverter.identity (c : VertexDataConverter) : Bool :=
  decide (c.widenRule.initialWidth = c.widenRule.finalWidth) && c.converter.identity

/-- Modelled from the spec: the `finalSize` member of `VertexDataConverter` (of
`vertexconversion.h`, not among the sources).
"outputElementSizeBytes = widenedCount × nativeEncoding.componentWidth". -/
def VertexDataConverter.finalSize (c : VertexDataConverter) : Nat :=
  c.widenRule.finalWidth * c.converter.OutputType.sizeof

/-- A pointer to a `convertArray` function, or `nullptr` (`none`). -/
abbrev VertexCopyFunction := Option VertexDataConverter

/-- The members of an instantiation of `Converter<fromType, normalized, size, PreferenceRule>`:
its `VertexDataConverter` base class and the four enumerators. -/
structure ConverterMembers where
  base : VertexDataConverter
  d3dtype : D3DVertexType
  d3dsize : Nat
  capflag : DWORD
  declflag : D3DDECLTYPE
  deriving DecidableEq, Repr

/-- Converter ties it all together. Given an OpenGL type/norm/size and choice of
preferred/fallback conversion, it provides all the members of the appropriate
VertexDataConverter, the D3DCAPS9::DeclTypes flag in cap flag and the D3DDECLTYPE member needed
for the vertex declaration in declflag. -/
def Converter (fromType : GLenum) (normalized : Bool) (size : Nat) (rule : PreferenceRule) :
    Option ConverterMembers := do
  let mapping ← VertexTypeMapping fromType normalized
  let d3dtype := rule.type mapping
  let InT ← GLToCType fromType
  let conv ← ConversionRule fromType normalized d3dtype
  let d3dsize := (WidenRule d3dtype size).finalWidth
  let flags ← VertexTypeFlags d3dtype d3dsize
  pure
    { base :=
        { InT := InT
          widenRule := WidenRule d3dtype size
          converter := conv
          defaultValueRule := DefaultVertexValues (D3DToCType d3dtype) normalized }
      d3dtype := d3dtype
      d3dsize := d3dsize
      capflag := flags.capflag
      declflag := flags.declflag }

/-- The two values of `VertexConversionType` (declared outside this file) that
`CreateVertexFormatInfo` assigns. -/
inductive VertexConversionType where
  | VERTEX_CONVERT_NONE
  | VERTEX_CONVERT_CPU
  deriving DecidableEq, Repr

open VertexConversionType

/-- The struct `d3d9::VertexFormat`, with the five members its constructor initialises. -/
structure VertexFormat where
  conversionType : VertexConversionType
  outputElementSize : Nat
  copyFunction : VertexCopyFunction
  nativeFormat : D3DDECLTYPE
  componentType : GLenum
  deriving DecidableEq, Repr

/-- The default constructor `VertexFormat::VertexFormat()`. -/
def VertexFormat.default : VertexFormat :=
  { conversionType := VERTEX_CONVERT_NONE
    outputElementSize := 0
    copyFunction := none
    nativeFormat := D3DDECLTYPE_UNUSED
    componentType := GL_NONE }

/-- Initialize a TranslationInfo. -/
def CreateVertexFormatInfo (identity : Bool) (elementSize : Nat) (copyFunc : VertexCopyFunction)
    (nativeFormat : D3DDECLTYPE) : VertexFormat :=
  let formatInfo := VertexFormat.default
  let formatInfo := { formatInfo with
    conversionType := if identity then VERTEX_CONVERT_NONE else VERTEX_CONVERT_CPU }
  let formatInfo := { formatInfo with outputElementSize := elementSize }
  let formatInfo := { formatInfo with copyFunction := copyFunc }
  let formatInfo := { formatInfo with nativeFormat := nativeFormat }
  let formatInfo := { formatInfo with componentType := GetDeclTypeComponentType nativeFormat }
  formatInfo

/-- The struct `TranslationDescription`. -/
structure TranslationDescription where
  capsFlag : DWORD
  preferredConversion : VertexFormat
  fallbackConversion : VertexFormat
  deriving DecidableEq, Repr

/-- The macro `TRANSLATION(type, norm, size, preferred)`. -/
def TRANSLATION (type : GLenum) (norm : Bool) (size : Nat) (preferred : PreferenceRule) :
    Option VertexFormat :=
  (Converter type norm size preferred).map fun c =>
    CreateVertexFormatInfo c.base.identity c.base.finalSize (some c.base) c.declflag

/-- The macro `TRANSLATION_FOR_TYPE_NORM_SIZE(type, norm, size)`. -/
def TRANSLATION_FOR_TYPE_NORM_SIZE (type : GLenum) (norm : Bool) (size : Nat) :
    Option TranslationDescription := do
  let c ← Converter type norm size .UsePreferred
  let p ← TRANSLATION type norm size .UsePreferred
  let f ← TRANSLATION type norm size .UseFallback
  pure { capsFlag := c.capflag, preferredConversion := p, fallbackConversion := f }

/-- The macro `TRANSLATIONS_FOR_TYPE(type)`: rows `[normalized][size-1]`. -/
def TRANSLATIONS_FOR_TYPE (type : GLenum) : List (List (Option TranslationDescription)) :=
  [[TRANSLATION_FOR_TYPE_NORM_SIZE type false 1,
    TRANSLATION_FOR_TYPE_NORM_SIZE type false 2,
    TRANSLATION_FOR_TYPE_NORM_SIZE type false 3,
    TRANSLATION_FOR_TYPE_NORM_SIZE type false 4],
   [TRANSLATION_FOR_TYPE_NORM_SIZE type true 1,
    TRANSLATION_FOR_TYPE_NORM_SIZE type true 2,
    TRANSLATION_FOR_TYPE_NORM_SIZE type true 3,
    TRANSLATION_FOR_TYPE_NORM_SIZE type true 4]]

/-- The macro `TRANSLATIONS_FOR_TYPE_NO_NORM(type)`: both rows are built with `false`. -/
def TRANSLATIONS_FOR_TYPE_NO_NORM (type : GLenum) :
    List (List (Option TranslationDescription)) :=
  [[TRANSLATION_FOR_TYPE_NORM_SIZE type false 1,
    TRANSLATION_FOR_TYPE_NORM_SIZE type false 2,
    TRANSLATION_FOR_TYPE_NORM_SIZE type false 3,
    TRANSLATION_FOR_TYPE_NORM_SIZE type false 4],
   [TRANSLATION_FOR_TYPE_NORM_SIZE type false 1,
    TRANSLATION_FOR_TYPE_NORM_SIZE type false 2,
    TRANSLATION_FOR_TYPE_NORM_SIZE type false 3,
    TRANSLATION_FOR_TYPE_NORM_SIZE type false 4]]

/-- The function `ComputeTypeIndex`; the `default` label returns 5 after `UNREACHABLE()`. -/
def ComputeTypeIndex (type : GLenum) : Nat :=
  if type = GL_BYTE then 0
  else if type = GL_UNSIGNED_BYTE then 1
  else if type = GL_SHORT then 2
  else if type = GL_UNSIGNED_SHORT then 3
  else if type = GL_FIXED then 4
  else if type = GL_FLOAT then 5
  else 5

/-- The local table `translations` of `GetVertexFormatInfo`:
`[GL types as enumerated by typeIndex()][normalized][size-1]`. -/
def translations : List (List (List (Option TranslationDescription))) :=
  [TRANSLATIONS_FOR_TYPE GL_BYTE, TRANSLATIONS_FOR_TYPE GL_UNSIGNED_BYTE,
   TRANSLATIONS_FOR_TYPE GL_SHORT, TRANSLATIONS_FOR_TYPE GL_UNSIGNED_SHORT,
   TRANSLATIONS_FOR_TYPE_NO_NORM GL_FIXED, TRANSLATIONS_FOR_TYPE_NO_NORM GL_FLOAT]

/-- The element `translations[i][j][k]`; `none` outside the array or where an instantiation
does not exist. -/
def translationsAt (i j k : Nat) : Option TranslationDescription :=
  (((translations.get? i).bind (fun row => row.get? j)).bind (fun col => col.get? k)).join

/-! ## The cached table of `GetVertexFormatInfo` -/

/-- The fields of `gl::VertexFormat` that `GetVertexFormatInfo` reads. The format is what
`gl::GetVertexFormatFromID` (outside this file) decodes the `angle::FormatID` argument to. -/
structure GLVertexFormat where
  type : GLenum
  normalized : Bool
  components : Nat
  pureInteger : Bool
  deriving DecidableEq, Repr

/-- The array `VertexFormat formatConverters[NUM_GL_VERTEX_ATTRIB_TYPES][2][4]`, as a function of
the three indices. -/
abbrev FormatConverters := Nat → Nat → Nat → VertexFormat

/-- The assignment `formatConverters[i][j][k] = v`. -/
def FormatConverters.set (fc : FormatConverters) (i j k : Nat) (v : VertexFormat) :
    FormatConverters :=
  fun i' j' k' => if i' = i ∧ j' = j ∧ k' = k then v else fc i' j' k'

/-- The two function-local statics of `GetVertexFormatInfo`. -/
structure StaticState where
  initializedDeclTypes : DWORD
  formatConverters : FormatConverters

/-- The statics when the process starts: `initializedDeclTypes = 0` and every element of
`formatConverters` default-constructed. -/
def StaticState.initial : StaticState :=
  { initializedDeclTypes := 0, formatConverters := fun _ _ _ => VertexFormat.default }

/-- The conversion the innermost loop body picks from one element of `translations`. -/
def selectConversion (supportedDeclTypes : DWORD) (tr : TranslationDescription) : VertexFormat :=
  if tr.capsFlag = 0 ∨ (supportedDeclTypes &&& tr.capsFlag) ≠ 0 then tr.preferredConversion
  else tr.fallbackConversion

/-- The body of the innermost loop, for the element `[i][j][k]`. -/
def rebuildElement (supportedDeclTypes : DWORD) (fc : FormatConverters) (i j k : Nat) :
    FormatConverters :=
  match translationsAt i j k with
  | some tr => fc.set i j k (selectConversion supportedDeclTypes tr)
  | none => fc

/-- The three nested `for` loops that fill `formatConverters` from `translations`. -/
def rebuildFormatConverters (supportedDeclTypes : DWORD) (fc : FormatConverters) :
    FormatConverters :=
  (List.range NUM_GL_VERTEX_ATTRIB_TYPES).foldl
    (fun fc i =>
      (List.range 2).foldl
        (fun fc j =>
          (List.range 4).foldl (fun fc k => rebuildElement supportedDeclTypes fc i j k) fc)
        fc)
    fc

/-- The element
`formatConverters[ComputeTypeIndex(vertexFormat.type)][vertexFormat.normalized][vertexFormat.components - 1]`
that the return statement reads. The last index is computed in unsigned 32-bit arithmetic, as in
the source. -/
def FormatConverters.lookup (fc : FormatConverters) (vertexFormat : GLVertexFormat) :
    VertexFormat :=
  fc (ComputeTypeIndex vertexFormat.type) (if vertexFormat.normalized then 1 else 0)
    ((vertexFormat.components + 2 ^ 32 - 1) % 2 ^ 32)

/-- The function `GetVertexFormatInfo`, with the statics passed in and out: the returned pair is
the referenced `VertexFormat` and the statics after the call. -/
def GetVertexFormatInfo (s : StaticState) (supportedDeclTypes : DWORD)
    (vertexFormat : GLVertexFormat) : VertexFormat × StaticState :=
  let s :=
    if s.initializedDeclTypes ≠ supportedDeclTypes then
      { initializedDeclTypes := supportedDeclTypes
        formatConverters := rebuildFormatConverters supportedDeclTypes s.formatConverters }
    else s
  (s.formatConverters.lookup vertexFormat, s)

/-- The cache states the process can be in: the initial one, and the state any call of
`GetVertexFormatInfo` leaves behind. -/
inductive Reachable : StaticState → Prop where
  | initial : Reachable StaticState.initial
  | call (s : StaticState) (supportedDeclTypes : DWORD) (vertexFormat : GLVertexFormat) :
      Reachable s → Reachable (GetVertexFormatInfo s supportedDeclTypes vertexFormat).2

/-! ## The 48 attribute keys -/

/-- The six GL vertex attribute types the table has a row for. -/
def vertexAttribTypes : List GLenum :=
  [GL_BYTE, GL_UNSIGNED_BYTE, GL_SHORT, GL_UNSIGNED_SHORT, GL_FIXED, GL_FLOAT]

/-- The legal component counts. -/
def componentCounts : List Nat := [1, 2, 3, 4]

/-- The six D3D vertex types. -/
def d3dVertexTypes : List D3DVertexType :=
  [D3DVT_FLOAT, D3DVT_SHORT, D3DVT_SHORT_NORM, D3DVT_UBYTE, D3DVT_UBYTE_NORM, D3DVT_USHORT_NORM]

/-- A vertex format is one of the 48 keys when its type is one of the six and it has between one
and four components. -/
def IsAttributeKey (vf : GLVertexFormat) : Prop :=
  vf.type ∈ vertexAttribTypes ∧ vf.components ∈ componentCounts

instance (vf : GLVertexFormat) : Decidable (IsAttributeKey vf) := by
  unfold IsAttributeKey; infer_instance

/-- The element of `translations` that belongs to a key. -/
def keyTranslation (vf : GLVertexFormat) : Option TranslationDescription :=
  translationsAt (ComputeTypeIndex vf.type) (if vf.normalized then 1 else 0) (vf.components - 1)

/-- The `norm` argument with which the row `[type][normalized]` of `translations` is
instantiated: `TRANSLATIONS_FOR_TYPE` passes the row's own flag, `TRANSLATIONS_FOR_TYPE_NO_NORM`
(used for `GL_FIXED` and `GL_FLOAT`) passes `false` in both rows. -/
def rowNormalized (type : GLenum) (normalized : Bool) : Bool :=
  if type = GL_FIXED ∨ type = GL_FLOAT then false else normalized

/-- The member of a `TranslationDescription` that a preference rule stands for. -/
def TranslationDescription.conversion (tr : TranslationDescription) (rule : PreferenceRule) :
    VertexFormat :=
  match rule with
  | .UsePreferred => tr.preferredConversion
  | .UseFallback => tr.fallbackConversion

/-- The declaration types that `GetDeclTypeComponentType` has a `case` label for. -/
def handledDeclTypes : List D3DDECLTYPE :=
  [D3DDECLTYPE_FLOAT1, D3DDECLTYPE_FLOAT2, D3DDECLTYPE_FLOAT3, D3DDECLTYPE_FLOAT4,
   D3DDECLTYPE_UBYTE4, D3DDECLTYPE_SHORT2, D3DDECLTYPE_SHORT4, D3DDECLTYPE_UBYTE4N,
   D3DDECLTYPE_SHORT4N, D3DDECLTYPE_USHORT4N, D3DDECLTYPE_SHORT2N, D3DDECLTYPE_USHORT2N]

/-! ## Texture formats -/

/-! The GL internal formats of the texture format table, with their values in the Khronos GL
headers and, for the two `ANGLEX` formats, in the GL header of this project. `GL_RGB16F` and
`GL_RGB32F` are the core names of `GL_RGB16F_EXT` and `GL_RGB32F_EXT`. -/

def GL_DEPTH_COMPONENT16 : GLenum := 0x81A5
def GL_DEPTH_COMPONENT32_OES : GLenum := 0x81A7
def GL_DEPTH24_STENCIL8_OES : GLenum := 0x88F0
def GL_STENCIL_INDEX8 : GLenum := 0x8D48
def GL_RGBA32F_EXT : GLenum := 0x8814
def GL_RGB32F_EXT : GLenum := 0x8815
def GL_RG32F_EXT : GLenum := 0x8230
def GL_R32F_EXT : GLenum := 0x822E
def GL_ALPHA32F_EXT : GLenum := 0x8816
def GL_LUMINANCE32F_EXT : GLenum := 0x8818
def GL_LUMINANCE_ALPHA32F_EXT : GLenum := 0x8819
def GL_RGBA16F_EXT : GLenum := 0x881A
def GL_RGB16F_EXT : GLenum := 0x881B
def GL_RG16F_EXT : GLenum := 0x822F
def GL_R16F_EXT : GLenum := 0x822D
def GL_ALPHA16F_EXT : GLenum := 0x881C
def GL_LUMINANCE16F_EXT : GLenum := 0x881E
def GL_LUMINANCE_ALPHA16F_EXT : GLenum := 0x881F
def GL_ALPHA8_EXT : GLenum := 0x803C
def GL_RGB8_OES : GLenum := 0x8051
def GL_RGB565 : GLenum := 0x8D62
def GL_RGBA8_OES : GLenum := 0x8058
def GL_RGBA4 : GLenum := 0x8056
def GL_RGB5_A1 : GLenum := 0x8057
def GL_R8_EXT : GLenum := 0x8229
def GL_RG8_EXT : GLenum := 0x822B
def GL_SRGB8 : GLenum := 0x8C41
def GL_SRGB8_ALPHA8_EXT : GLenum := 0x8C43
def GL_BGRA_EXT : GLenum := 0x80E1
def GL_BGRA8_EXT : GLenum := 0x93A1
def GL_BGRA4_ANGLEX : GLenum := 0x6ABC
def GL_BGR5_A1_ANGLEX : GLenum := 0x6ABD
def GL_COMPRESSED_RGB_S3TC_DXT1_EXT : GLenum := 0x83F0
def GL_COMPRESSED_RGBA_S3TC_DXT1_EXT : GLenum := 0x83F1
def GL_COMPRESSED_RGBA_S3TC_DXT3_ANGLE : GLenum := 0x83F2
def GL_COMPRESSED_RGBA_S3TC_DXT5_ANGLE : GLenum := 0x83F3
def GL_COMPRESSED_SRGB_S3TC_DXT1_EXT : GLenum := 0x8C4C
def GL_COMPRESSED_SRGB_ALPHA_S3TC_DXT1_EXT : GLenum := 0x8C4D
def GL_COMPRESSED_SRGB_ALPHA_S3TC_DXT3_EXT : GLenum := 0x8C4E
def GL_COMPRESSED_SRGB_ALPHA_S3TC_DXT5_EXT : GLenum := 0x8C4F
def GL_LUMINANCE8_EXT : GLenum := 0x8040
def GL_LUMINANCE8_ALPHA8_EXT : GLenum := 0x8045
def GL_LUMINANCE4_ALPHA4_OES : GLenum := 0x8043
def GL_RGB16F : GLenum := 0x881B
def GL_RGB32F : GLenum := 0x8815

/-- The `D3DFORMAT` values the table uses, by name. `D3DFMT_INTZ` and `D3DFMT_NULL` are the two
FOURCC formats this file declares; the others are from the Direct3D 9 headers. -/
inductive D3DFORMAT where
  | D3DFMT_NULL
  | D3DFMT_INTZ
  | D3DFMT_D24S8
  | D3DFMT_D24X8
  | D3DFMT_UNKNOWN
  | D3DFMT_A32B32G32R32F
  | D3DFMT_G32R32F
  | D3DFMT_R32F
  | D3DFMT_A16B16G16R16F
  | D3DFMT_G16R16F
  | D3DFMT_R16F
  | D3DFMT_A8R8G8B8
  | D3DFMT_X8R8G8B8
  | D3DFMT_DXT1
  | D3DFMT_DXT3
  | D3DFMT_DXT5
  | D3DFMT_L8
  | D3DFMT_A8L8
  | D3DFMT_A4L4
  deriving DecidableEq, Repr

/-- The GL typedefs that appear as template arguments of the load and initializer functions. -/
inductive GLScalar where
  | GLfloat
  | GLhalf
  | GLubyte
  deriving DecidableEq, Repr

/-- The constants `gl::Float16One` and `gl::Float32One`, by name. -/
inductive FloatOne where
  | Float16One
  | Float32One
  deriving DecidableEq, Repr

/-- The image loading functions the table points to (declared in `image_util/loadimage.h` and,
for `UnreachableLoad`, in this file), named with their template arguments. Two pointers are
equal when they name the same instantiation. -/
inductive LoadImageFunction where
  | UnreachableLoad
  | LoadToNative (type : GLScalar) (componentCount : Nat)
  | LoadToNative3To4 (type : GLScalar) (fourthComponentBits : FloatOne)
  | LoadA32FToRGBA32F
  | LoadL32FToRGBA32F
  | LoadLA32FToRGBA32F
  | LoadA16FToRGBA16F
  | LoadL16FToRGBA16F
  | LoadLA16FToRGBA16F
  | LoadA8ToBGRA8
  | LoadRGB8ToBGRX8
  | LoadR5G6B5ToBGRA8
  | LoadRGBA8ToBGRA8
  | LoadRGBA4ToBGRA8
  | LoadRGB5A1ToBGRA8
  | LoadR8ToBGRX8
  | LoadRG8ToBGRX8
  | LoadBGRA4ToBGRA8
  | LoadBGR5A1ToBGRA8
  | LoadCompressedToNative (blockWidth blockHeight blockDepth blockSize : Nat)
  deriving DecidableEq, Repr

/-- The instantiations of `Initialize4ComponentData<type, firstBits, secondBits, thirdBits,
fourthBits>` that an initializer pointer can name. -/
inductive Initialize4ComponentData where
  | mk (type : GLScalar) (firstBits secondBits thirdBits : Nat) (fourthBits : FloatOne)
  deriving DecidableEq, Repr

/-- An `InitializeTextureDataFunction` pointer; `nullptr` is `none`. -/
abbrev InitializeTextureDataFunction := Option Initialize4ComponentData

/-- The struct `d3d9::TextureFormat`, with the four members its constructor initialises. -/
structure TextureFormat where
  texFormat : D3DFORMAT
  renderFormat : D3DFORMAT
  dataInitializerFunction : InitializeTextureDataFunction
  loadFunction : LoadImageFunction
  deriving DecidableEq, Repr

/-- The default constructor `TextureFormat::TextureFormat()`. -/
def TextureFormat.default : TextureFormat :=
  { texFormat := .D3DFMT_UNKNOWN
    renderFormat := .D3DFMT_UNKNOWN
    dataInitializerFunction := none
    loadFunction := .UnreachableLoad }

/-- The member `std::map::insert` on a map kept as a list of pairs: a pair whose key is already
in the map is not inserted. -/
def mapInsert {β : Type} (map : List (Nat × β)) (key : Nat) (value : β) : List (Nat × β) :=
  if (map.lookup key).isSome then map else map ++ [(key, value)]

/-- The function `BuildInternalFormatInitialzerMap`. -/
def BuildInternalFormatInitialzerMap : List (Nat × Initialize4ComponentData) :=
  let map := []
  let map := mapInsert map GL_RGB16F (.mk .GLhalf 0x0000 0x0000 0x0000 .Float16One)
  let map := mapInsert map GL_RGB32F (.mk .GLfloat 0x00000000 0x00000000 0x00000000 .Float32One)
  map

/-- The function `InsertD3D9FormatInfo`, returning the map it updates. -/
def InsertD3D9FormatInfo (map : List (Nat × TextureFormat)) (internalFormat : GLenum)
    (texFormat renderFormat : D3DFORMAT) (loadFunction : LoadImageFunction) :
    List (Nat × TextureFormat) :=
  let info := TextureFormat.default
  let info := { info with texFormat := texFormat }
  let info := { info with renderFormat := renderFormat }
  let dataInitIter := BuildInternalFormatInitialzerMap.lookup internalFormat
  let info := { info with
    dataInitializerFunction :=
      match dataInitIter with
      | some second => some second
      | none => none }
  let info := { info with loadFunction := loadFunction }
  mapInsert map internalFormat info

/-- One `InsertD3D9FormatInfo(&map, ...)` line of `BuildD3D9FormatMap`. -/
structure D3D9FormatRow where
  internalFormat : GLenum
  texFormat : D3DFORMAT
  renderFormat : D3DFORMAT
  loadFunction : LoadImageFunction
  deriving DecidableEq, Repr

/-- The 44 `InsertD3D9FormatInfo` lines of `BuildD3D9FormatMap`, in source order:
internal format, texture format, render format, load function. -/
def d3d9FormatRows : List D3D9FormatRow :=
  [⟨GL_NONE, .D3DFMT_NULL, .D3DFMT_NULL, .UnreachableLoad⟩,
   ⟨GL_DEPTH_COMPONENT16, .D3DFMT_INTZ, .D3DFMT_D24S8, .UnreachableLoad⟩,
   ⟨GL_DEPTH_COMPONENT32_OES, .D3DFMT_INTZ, .D3DFMT_D24X8, .UnreachableLoad⟩,
   ⟨GL_DEPTH24_STENCIL8_OES, .D3DFMT_INTZ, .D3DFMT_D24S8, .UnreachableLoad⟩,
   ⟨GL_STENCIL_INDEX8, .D3DFMT_UNKNOWN, .D3DFMT_D24S8, .UnreachableLoad⟩,
   ⟨GL_RGBA32F_EXT, .D3DFMT_A32B32G32R32F, .D3DFMT_A32B32G32R32F, .LoadToNative .GLfloat 4⟩,
   ⟨GL_RGB32F_EXT, .D3DFMT_A32B32G32R32F, .D3DFMT_A32B32G32R32F, .LoadToNative3To4 .GLfloat .Float32One⟩,
   ⟨GL_RG32F_EXT, .D3DFMT_G32R32F, .D3DFMT_G32R32F, .LoadToNative .GLfloat 2⟩,
   ⟨GL_R32F_EXT, .D3DFMT_R32F, .D3DFMT_R32F, .LoadToNative .GLfloat 1⟩,
   ⟨GL_ALPHA32F_EXT, .D3DFMT_A32B32G32R32F, .D3DFMT_UNKNOWN, .LoadA32FToRGBA32F⟩,
   ⟨GL_LUMINANCE32F_EXT, .D3DFMT_A32B32G32R32F, .D3DFMT_UNKNOWN, .LoadL32FToRGBA32F⟩,
   ⟨GL_LUMINANCE_ALPHA32F_EXT, .D3DFMT_A32B32G32R32F, .D3DFMT_UNKNOWN, .LoadLA32FToRGBA32F⟩,
   ⟨GL_RGBA16F_EXT, .D3DFMT_A16B16G16R16F, .D3DFMT_A16B16G16R16F, .LoadToNative .GLhalf 4⟩,
   ⟨GL_RGB16F_EXT, .D3DFMT_A16B16G16R16F, .D3DFMT_A16B16G16R16F, .LoadToNative3To4 .GLhalf .Float16One⟩,
   ⟨GL_RG16F_EXT, .D3DFMT_G16R16F, .D3DFMT_G16R16F, .LoadToNative .GLhalf 2⟩,
   ⟨GL_R16F_EXT, .D3DFMT_R16F, .D3DFMT_R16F, .LoadToNative .GLhalf 1⟩,
   ⟨GL_ALPHA16F_EXT, .D3DFMT_A16B16G16R16F, .D3DFMT_UNKNOWN, .LoadA16FToRGBA16F⟩,
   ⟨GL_LUMINANCE16F_EXT, .D3DFMT_A16B16G16R16F, .D3DFMT_UNKNOWN, .LoadL16FToRGBA16F⟩,
   ⟨GL_LUMINANCE_ALPHA16F_EXT, .D3DFMT_A16B16G16R16F, .D3DFMT_UNKNOWN, .LoadLA16FToRGBA16F⟩,
   ⟨GL_ALPHA8_EXT, .D3DFMT_A8R8G8B8, .D3DFMT_A8R8G8B8, .LoadA8ToBGRA8⟩,
   ⟨GL_RGB8_OES, .D3DFMT_X8R8G8B8, .D3DFMT_X8R8G8B8, .LoadRGB8ToBGRX8⟩,
   ⟨GL_RGB565, .D3DFMT_X8R8G8B8, .D3DFMT_X8R8G8B8, .LoadR5G6B5ToBGRA8⟩,
   ⟨GL_RGBA8_OES, .D3DFMT_A8R8G8B8, .D3DFMT_A8R8G8B8, .LoadRGBA8ToBGRA8⟩,
   ⟨GL_RGBA4, .D3DFMT_A8R8G8B8, .D3DFMT_A8R8G8B8, .LoadRGBA4ToBGRA8⟩,
   ⟨GL_RGB5_A1, .D3DFMT_A8R8G8B8, .D3DFMT_A8R8G8B8, .LoadRGB5A1ToBGRA8⟩,
   ⟨GL_R8_EXT, .D3DFMT_X8R8G8B8, .D3DFMT_X8R8G8B8, .LoadR8ToBGRX8⟩,
   ⟨GL_RG8_EXT, .D3DFMT_X8R8G8B8, .D3DFMT_X8R8G8B8, .LoadRG8ToBGRX8⟩,
   ⟨GL_SRGB8, .D3DFMT_X8R8G8B8, .D3DFMT_UNKNOWN, .LoadRGB8ToBGRX8⟩,
   ⟨GL_SRGB8_ALPHA8_EXT, .D3DFMT_A8R8G8B8, .D3DFMT_A8R8G8B8, .LoadRGBA8ToBGRA8⟩,
   ⟨GL_BGRA_EXT, .D3DFMT_A8R8G8B8, .D3DFMT_A8R8G8B8, .LoadToNative .GLubyte 4⟩,
   ⟨GL_BGRA8_EXT, .D3DFMT_A8R8G8B8, .D3DFMT_A8R8G8B8, .LoadToNative .GLubyte 4⟩,
   ⟨GL_BGRA4_ANGLEX, .D3DFMT_A8R8G8B8, .D3DFMT_A8R8G8B8, .LoadBGRA4ToBGRA8⟩,
   ⟨GL_BGR5_A1_ANGLEX, .D3DFMT_A8R8G8B8, .D3DFMT_A8R8G8B8, .LoadBGR5A1ToBGRA8⟩,
   ⟨GL_COMPRESSED_RGB_S3TC_DXT1_EXT, .D3DFMT_DXT1, .D3DFMT_UNKNOWN, .LoadCompressedToNative 4 4 1 8⟩,
   ⟨GL_COMPRESSED_RGBA_S3TC_DXT1_EXT, .D3DFMT_DXT1, .D3DFMT_UNKNOWN, .LoadCompressedToNative 4 4 1 8⟩,
   ⟨GL_COMPRESSED_RGBA_S3TC_DXT3_ANGLE, .D3DFMT_DXT3, .D3DFMT_UNKNOWN, .LoadCompressedToNative 4 4 1 16⟩,
   ⟨GL_COMPRESSED_RGBA_S3TC_DXT5_ANGLE, .D3DFMT_DXT5, .D3DFMT_UNKNOWN, .LoadCompressedToNative 4 4 1 16⟩,
   ⟨GL_COMPRESSED_SRGB_S3TC_DXT1_EXT, .D3DFMT_DXT1, .D3DFMT_UNKNOWN, .LoadCompressedToNative 4 4 1 8⟩,
   ⟨GL_COMPRESSED_SRGB_ALPHA_S3TC_DXT1_EXT, .D3DFMT_DXT1, .D3DFMT_UNKNOWN, .LoadCompressedToNative 4 4 1 8⟩,
   ⟨GL_COMPRESSED_SRGB_ALPHA_S3TC_DXT3_EXT, .D3DFMT_DXT3, .D3DFMT_UNKNOWN, .LoadCompressedToNative 4 4 1 16⟩,
   ⟨GL_COMPRESSED_SRGB_ALPHA_S3TC_DXT5_EXT, .D3DFMT_DXT5, .D3DFMT_UNKNOWN, .LoadCompressedToNative 4 4 1 16⟩,
   ⟨GL_LUMINANCE8_EXT, .D3DFMT_L8, .D3DFMT_UNKNOWN, .LoadToNative .GLubyte 1⟩,
   ⟨GL_LUMINANCE8_ALPHA8_EXT, .D3DFMT_A8L8, .D3DFMT_UNKNOWN, .LoadToNative .GLubyte 2⟩,
   ⟨GL_LUMINANCE4_ALPHA4_OES, .D3DFMT_A4L4, .D3DFMT_UNKNOWN, .LoadToNative .GLubyte 1⟩]

/-- The function `BuildD3D9FormatMap`: the rows are inserted one after the other into an empty
map. -/
def BuildD3D9FormatMap : List (Nat × TextureFormat) :=
  d3d9FormatRows.foldl
    (fun map row =>
      InsertD3D9FormatInfo map row.internalFormat row.texFormat row.renderFormat
        row.loadFunction)
    []

/-- The function `GetTextureFormatInfo`. -/
def GetTextureFormatInfo (internalFormat : GLenum) : TextureFormat :=
  match BuildD3D9FormatMap.lookup internalFormat with
  | some second => second
  | none => TextureFormat.default

/-! ## Lemmas on the rebuild loops -/

/-- What the rebuild leaves in the element `[i][j][k]` that held `old`. -/
def rebuiltElement (supportedDeclTypes : DWORD) (i j k : Nat) (old : VertexFormat) :
    VertexFormat :=
  match translationsAt i j k with
  | some tr => selectConversion supportedDeclTypes tr
  | none => old

theorem rebuildElement_apply (b : DWORD) (fc : FormatConverters) (i j k i' j' k' : Nat) :
    rebuildElement b fc i j k i' j' k' =
      if i' = i ∧ j' = j ∧ k' = k then rebuiltElement b i j k (fc i' j' k') else fc i' j' k' := by
  unfold rebuildElement rebuiltElement
  cases h : translationsAt i j k with
  | none => simp
  | some tr => simp [FormatConverters.set]

theorem inner_loop_apply (b : DWORD) (i j : Nat) (n : Nat) (fc : FormatConverters)
    (i' j' k' : Nat) :
    (List.range n).foldl (fun fc k => rebuildElement b fc i j k) fc i' j' k' =
      if i' = i ∧ j' = j ∧ k' < n then rebuiltElement b i j k' (fc i' j' k')
      else fc i' j' k' := by
  induction n with
  | zero => simp
  | succ n ih =>
    rw [List.range_succ, List.foldl_append]
    simp only [List.foldl_cons, List.foldl_nil]
    rw [rebuildElement_apply, ih]
    by_cases hi : i' = i <;> by_cases hj : j' = j <;> simp [hi, hj]
    rcases Nat.lt_trichotomy k' n with h | h | h
    · have h1 : k' ≠ n := Nat.ne_of_lt h
      have h2 : k' < n + 1 := by omega
      simp [h, h1, h2]
    · subst h
      simp
    · have h1 : k' ≠ n := by omega
      have h2 : ¬ k' < n + 1 := by omega
      have h3 : ¬ k' < n := by omega
      simp [h1, h2, h3]

theorem middle_loop_apply (b : DWORD) (i : Nat) (m : Nat) (fc : FormatConverters)
    (i' j' k' : Nat) :
    (List.range m).foldl
        (fun fc j => (List.range 4).foldl (fun fc k => rebuildElement b fc i j k) fc) fc
        i' j' k' =
      if i' = i ∧ j' < m ∧ k' < 4 then rebuiltElement b i j' k' (fc i' j' k')
      else fc i' j' k' := by
  induction m with
  | zero => simp
  | succ m ih =>
    have hr : List.range (m + 1) = List.range m ++ [m] := List.range_succ _
    rw [hr, List.foldl_append]
    simp only [List.foldl_cons, List.foldl_nil]
    rw [inner_loop_apply, ih]
    by_cases hi : i' = i <;> by_cases hk : k' < 4 <;> simp [hi, hk]
    rcases Nat.lt_trichotomy j' m with h | h | h
    · have h1 : j' ≠ m := Nat.ne_of_lt h
      have h2 : j' < m + 1 := by omega
      simp [h, h1, h2]
    · subst h
      simp
    · have h1 : j' ≠ m := by omega
      have h2 : ¬ j' < m + 1 := by omega
      have h3 : ¬ j' < m := by omega
      simp [h1, h2, h3]

theorem outer_loop_apply (b : DWORD) (l : Nat) (fc : FormatConverters) (i' j' k' : Nat) :
    (List.range l).foldl
        (fun fc i =>
          (List.range 2).foldl
            (fun fc j => (List.range 4).foldl (fun fc k => rebuildElement b fc i j k) fc) fc)
        fc i' j' k' =
      if i' < l ∧ j' < 2 ∧ k' < 4 then rebuiltElement b i' j' k' (fc i' j' k')
      else fc i' j' k' := by
  induction l with
  | zero => simp
  | succ l ih =>
    have hr : List.range (l + 1) = List.range l ++ [l] := List.range_succ _
    rw [hr, List.foldl_append]
    simp only [List.foldl_cons, List.foldl_nil]
    rw [middle_loop_apply, ih]
    by_cases hj : j' < 2 <;> by_cases hk : k' < 4 <;> simp [hj, hk]
    rcases Nat.lt_trichotomy i' l with h | h | h
    · have h1 : i' ≠ l := Nat.ne_of_lt h
      have h2 : i' < l + 1 := by omega
      simp [h, h1, h2]
    · subst h
      simp
    · have h1 : i' ≠ l := by omega
      have h2 : ¬ i' < l + 1 := by omega
      have h3 : ¬ i' < l := by omega
      simp [h1, h2, h3]

/-- After the rebuild every element inside the array bounds holds what the loop body computes
for it, whatever the array held before; the elements outside are untouched. -/
theorem rebuildFormatConverters_apply (b : DWORD) (fc : FormatConverters) (i j k : Nat) :
    rebuildFormatConverters b fc i j k =
      if i < NUM_GL_VERTEX_ATTRIB_TYPES ∧ j < 2 ∧ k < 4 then rebuiltElement b i j k (fc i j k)
      else fc i j k := by
  unfold rebuildFormatConverters
  exact outer_loop_apply b NUM_GL_VERTEX_ATTRIB_TYPES fc i j k

/-! ## Lemmas on the keys and on the table `translations` -/

/-- A property of vertex formats holds of every key once it holds of the 48 combinations. -/
theorem forall_attributeKey {P : GLVertexFormat → Prop}
    (h : ∀ t ∈ vertexAttribTypes, ∀ norm : Bool, ∀ n ∈ componentCounts, ∀ p : Bool,
      P ⟨t, norm, n, p⟩) :
    ∀ vf, IsAttributeKey vf → P vf := by
  intro vf hvf
  obtain ⟨t, norm, n, p⟩ := vf
  exact h t hvf.1 norm n hvf.2 p

theorem mem_vertexAttribTypes {t : GLenum} (h : t ∈ vertexAttribTypes) :
    t = GL_BYTE ∨ t = GL_UNSIGNED_BYTE ∨ t = GL_SHORT ∨ t = GL_UNSIGNED_SHORT ∨ t = GL_FIXED ∨
      t = GL_FLOAT := by
  simpa [vertexAttribTypes] using h

theorem mem_componentCounts {n : Nat} (h : n ∈ componentCounts) :
    n = 1 ∨ n = 2 ∨ n = 3 ∨ n = 4 := by
  simpa [componentCounts] using h

/-- The macro instantiation behind the element of `translations` of a key: the key's own type
and count, and its normalized flag except in the two rows built without it. -/
theorem keyTranslation_eq (vf : GLVertexFormat) (hkey : IsAttributeKey vf) :
    keyTranslation vf =
      TRANSLATION_FOR_TYPE_NORM_SIZE vf.type
        (if vf.type = GL_FIXED ∨ vf.type = GL_FLOAT then false else vf.normalized)
        vf.components := by
  revert vf
  apply forall_attributeKey
  intro t ht norm n hn p
  rcases mem_vertexAttribTypes ht with rfl | rfl | rfl | rfl | rfl | rfl <;>
    rcases mem_componentCounts hn with rfl | rfl | rfl | rfl <;> cases norm <;>
    (unfold keyTranslation; dsimp only; decide)

/-- Every key has an element in `translations`, at indices inside the array bounds, and the
unsigned subtraction in the last index does not wrap. -/
theorem key_index (vf : GLVertexFormat) (hkey : IsAttributeKey vf) :
    ComputeTypeIndex vf.type < NUM_GL_VERTEX_ATTRIB_TYPES ∧
      (if vf.normalized then 1 else 0) < 2 ∧
      (vf.components + 2 ^ 32 - 1) % 2 ^ 32 = vf.components - 1 ∧
      vf.components - 1 < 4 ∧ (keyTranslation vf).isSome = true := by
  revert vf
  apply forall_attributeKey
  intro t ht norm n hn p
  rcases mem_vertexAttribTypes ht with rfl | rfl | rfl | rfl | rfl | rfl <;>
    rcases mem_componentCounts hn with rfl | rfl | rfl | rfl <;> cases norm <;>
    (unfold keyTranslation; dsimp only; decide)

theorem VertexTypeFlags_size {t : D3DVertexType} {n : Nat} {fl : VertexTypeFlagsHelper}
    (h : VertexTypeFlags t n = some fl) : n = 1 ∨ n = 2 ∨ n = 3 ∨ n = 4 := by
  unfold VertexTypeFlags at h
  split at h <;> simp_all

/-- In `VertexTypeFlags` the declaration type determines the capability flag. -/
theorem VertexTypeFlags_capflag_unique {t t' : D3DVertexType} {n n' : Nat}
    {fl fl' : VertexTypeFlagsHelper} (h : VertexTypeFlags t n = some fl)
    (h' : VertexTypeFlags t' n' = some fl') (hd : fl.declflag = fl'.declflag) :
    fl.capflag = fl'.capflag := by
  rcases VertexTypeFlags_size h with rfl | rfl | rfl | rfl <;>
    rcases VertexTypeFlags_size h' with rfl | rfl | rfl | rfl <;>
    cases t <;> cases t' <;> simp [VertexTypeFlags] at h h' <;>
    subst h <;> subst h' <;> first | rfl | (exact absurd hd (by decide))

/-- For every key, the capability flag and the two declaration types of its element of
`translations` are paired by `VertexTypeFlags`: the preferred declaration type with the stored
flag, the fallback declaration type with 0. -/
theorem keyTranslation_flags (vf : GLVertexFormat) (hkey : IsAttributeKey vf) :
    ∀ tr ∈ keyTranslation vf,
      (∃ t ∈ d3dVertexTypes, ∃ n ∈ componentCounts,
        VertexTypeFlags t n = some ⟨tr.capsFlag, tr.preferredConversion.nativeFormat⟩) ∧
      (∃ t ∈ d3dVertexTypes, ∃ n ∈ componentCounts,
        VertexTypeFlags t n = some ⟨0, tr.fallbackConversion.nativeFormat⟩) := by
  revert vf
  apply forall_attributeKey
  intro t ht norm n hn p
  rcases mem_vertexAttribTypes ht with rfl | rfl | rfl | rfl | rfl | rfl <;>
    rcases mem_componentCounts hn with rfl | rfl | rfl | rfl <;> cases norm <;>
    (unfold keyTranslation; dsimp only; decide)

/-- The result of a call whose bitmask differs from the cached one. -/
theorem GetVertexFormatInfo_of_ne (s : StaticState) (b : DWORD) (vf : GLVertexFormat)
    (hb : s.initializedDeclTypes ≠ b) :
    GetVertexFormatInfo s b vf =
      ((rebuildFormatConverters b s.formatConverters).lookup vf,
        { initializedDeclTypes := b
          formatConverters := rebuildFormatConverters b s.formatConverters }) := by
  unfold GetVertexFormatInfo
  simp only [hb, ne_eq, not_false_eq_true, if_true]

/-- The result of a call whose bitmask equals the cached one. -/
theorem GetVertexFormatInfo_of_eq (s : StaticState) (b : DWORD) (vf : GLVertexFormat)
    (hb : s.initializedDeclTypes = b) :
    GetVertexFormatInfo s b vf = (s.formatConverters.lookup vf, s) := by
  unfold GetVertexFormatInfo
  simp only [hb, ne_eq, not_true_eq_false, if_false]

/-- The element a rebuild leaves for a key is the conversion selected from the key's element of
`translations`. -/
theorem rebuild_key (b : DWORD) (fc : FormatConverters) (vf : GLVertexFormat)
    (hkey : IsAttributeKey vf) (tr : TranslationDescription) (htr : keyTranslation vf = some tr) :
    (rebuildFormatConverters b fc).lookup vf = selectConversion b tr := by
  obtain ⟨h1, h2, h3, h4, -⟩ := key_index vf hkey
  unfold FormatConverters.lookup
  rw [h3, rebuildFormatConverters_apply, if_pos ⟨h1, h2, h4⟩]
  unfold rebuiltElement
  unfold keyTranslation at htr
  rw [htr]

/-- Every element of `translations` inside the array bounds exists: each of the 48 macro
instantiations is given. -/
theorem translationsAt_isSome (i j k : Nat) (hi : i < NUM_GL_VERTEX_ATTRIB_TYPES) (hj : j < 2)
    (hk : k < 4) : (translationsAt i j k).isSome = true := by
  unfold NUM_GL_VERTEX_ATTRIB_TYPES at hi
  interval_cases i <;> interval_cases j <;> interval_cases k <;> decide

/-- Inside the array bounds the rebuilt table holds the conversion selected for the bitmask. -/
theorem rebuild_apply_of_lt (b : DWORD) (fc : FormatConverters) (i j k : Nat)
    (hi : i < NUM_GL_VERTEX_ATTRIB_TYPES) (hj : j < 2) (hk : k < 4) :
    ∃ tr, translationsAt i j k = some tr ∧
      rebuildFormatConverters b fc i j k = selectConversion b tr := by
  obtain ⟨tr, htr⟩ := Option.isSome_iff_exists.mp (translationsAt_isSome i j k hi hj hk)
  refine ⟨tr, htr, ?_⟩
  rw [rebuildFormatConverters_apply, if_pos ⟨hi, hj, hk⟩]
  unfold rebuiltElement
  rw [htr]

/-- C1: for each of the six vertex attribute types and both values of the normalized flag,
`VertexTypeMapping` gives the preferred and the fallback D3D vertex type of the policy table:
byte -> short, short; normalized byte -> float, float; unsigned byte -> unsigned byte, float;
normalized unsigned byte -> normalized unsigned byte, float; short -> short, short; normalized
short -> normalized short, float; unsigned short -> float, float; normalized unsigned short ->
normalized unsigned short, float; fixed and float (either flag) -> float, float. -/
theorem vertexTypeMapping_policy_table :
    VertexTypeMapping GL_BYTE false = some ⟨D3DVT_SHORT, D3DVT_SHORT⟩ ∧
    VertexTypeMapping GL_BYTE true = some ⟨D3DVT_FLOAT, D3DVT_FLOAT⟩ ∧
    VertexTypeMapping GL_UNSIGNED_BYTE false = some ⟨D3DVT_UBYTE, D3DVT_FLOAT⟩ ∧
    VertexTypeMapping GL_UNSIGNED_BYTE true = some ⟨D3DVT_UBYTE_NORM, D3DVT_FLOAT⟩ ∧
    VertexTypeMapping GL_SHORT false = some ⟨D3DVT_SHORT, D3DVT_SHORT⟩ ∧
    VertexTypeMapping GL_SHORT true = some ⟨D3DVT_SHORT_NORM, D3DVT_FLOAT⟩ ∧
    VertexTypeMapping GL_UNSIGNED_SHORT false = some ⟨D3DVT_FLOAT, D3DVT_FLOAT⟩ ∧
    VertexTypeMapping GL_UNSIGNED_SHORT true = some ⟨D3DVT_USHORT_NORM, D3DVT_FLOAT⟩ ∧
    VertexTypeMapping GL_FIXED false = some ⟨D3DVT_FLOAT, D3DVT_FLOAT⟩ ∧
    VertexTypeMapping GL_FIXED true = some ⟨D3DVT_FLOAT, D3DVT_FLOAT⟩ ∧
    VertexTypeMapping GL_FLOAT false = some ⟨D3DVT_FLOAT, D3DVT_FLOAT⟩ ∧
    VertexTypeMapping GL_FLOAT true = some ⟨D3DVT_FLOAT, D3DVT_FLOAT⟩ := by
  decide

/-- C3: in the table built for the bitmask `b`, whatever the table held before, the element of
every key has a declaration type that `VertexTypeFlags` gives, and every capability flag that
`VertexTypeFlags` pairs with that declaration type is 0 or has a bit in common with `b`. -/
theorem rebuilt_element_capability_safe (b : DWORD) (fc : FormatConverters)
    (vf : GLVertexFormat) (hkey : IsAttributeKey vf) :
    (∃ t n fl, VertexTypeFlags t n = some fl ∧
      fl.declflag = ((rebuildFormatConverters b fc).lookup vf).nativeFormat) ∧
    ∀ t n fl, VertexTypeFlags t n = some fl →
      fl.declflag = ((rebuildFormatConverters b fc).lookup vf).nativeFormat →
      fl.capflag = 0 ∨ (b &&& fl.capflag) ≠ 0 := by
  obtain ⟨tr, htr⟩ := Option.isSome_iff_exists.mp (key_index vf hkey).2.2.2.2
  obtain ⟨⟨tp, -, np, -, hp⟩, ⟨tf, -, nf, -, hf⟩⟩ := keyTranslation_flags vf hkey tr htr
  rw [rebuild_key b fc vf hkey tr htr]
  unfold selectConversion
  by_cases hc : tr.capsFlag = 0 ∨ (b &&& tr.capsFlag) ≠ 0
  · rw [if_pos hc]
    refine ⟨⟨tp, np, _, hp, rfl⟩, ?_⟩
    intro t n fl hfl hd
    have := VertexTypeFlags_capflag_unique hfl hp hd
    rw [this]
    exact hc
  · rw [if_neg hc]
    refine ⟨⟨tf, nf, _, hf, rfl⟩, ?_⟩
    intro t n fl hfl hd
    have := VertexTypeFlags_capflag_unique hfl hf hd
    exact Or.inl this

/-- C3, at an input: the table built for the bitmask `D3DDTCAPS_SHORT2N` over the initial
table, at the key (short, normalized, 4 components). -/
theorem rebuilt_element_capability_safe_witness :
    IsAttributeKey ⟨GL_SHORT, true, 4, false⟩ ∧
    (∃ t n fl, VertexTypeFlags t n = some fl ∧
      fl.declflag = ((rebuildFormatConverters D3DDTCAPS_SHORT2N
        StaticState.initial.formatConverters).lookup ⟨GL_SHORT, true, 4, false⟩).nativeFormat) ∧
    ∀ t n fl, VertexTypeFlags t n = some fl →
      fl.declflag = ((rebuildFormatConverters D3DDTCAPS_SHORT2N
        StaticState.initial.formatConverters).lookup ⟨GL_SHORT, true, 4, false⟩).nativeFormat →
      fl.capflag = 0 ∨ (D3DDTCAPS_SHORT2N &&& fl.capflag) ≠ 0 :=
  ⟨by decide,
    rebuilt_element_capability_safe D3DDTCAPS_SHORT2N StaticState.initial.formatConverters
      ⟨GL_SHORT, true, 4, false⟩ (by decide)⟩

/-- C4, at the failing input: the initial cache state is reachable, and the first call of the
process with the bitmask 0 does not rebuild; for the key (float, not normalized, 1 component) it
returns the default-constructed element, whose `outputElementSize` is 0 and whose
`copyFunction` is null. -/
theorem first_call_zero_bitmask_returns_default :
    Reachable StaticState.initial ∧
    IsAttributeKey ⟨GL_FLOAT, false, 1, false⟩ ∧
    (GetVertexFormatInfo StaticState.initial 0 ⟨GL_FLOAT, false, 1, false⟩).1.outputElementSize
      = 0 ∧
    (GetVertexFormatInfo StaticState.initial 0 ⟨GL_FLOAT, false, 1, false⟩).1.copyFunction
      = none :=
  ⟨Reachable.initial, by decide, by decide, by decide⟩

/-- C5: for every key, the fallback D3D vertex type at its widened count has a declaration type
in `VertexTypeFlags` whose capability flag is 0; the fallback `Converter` of the key has that
vertex type, that count and the capability flag 0, and the fallback conversion stored for the
key in `translations` has that declaration type. -/
theorem fallback_requires_no_capability (t : GLenum) (ht : t ∈ vertexAttribTypes) (norm : Bool)
    (n : Nat) (hn : n ∈ componentCounts) :
    ∃ m fl c, VertexTypeMapping t norm = some m ∧
      VertexTypeFlags m.fallback (WidenRule m.fallback n).finalWidth = some fl ∧
      fl.capflag = 0 ∧
      Converter t norm n .UseFallback = some c ∧
      c.d3dtype = m.fallback ∧ c.d3dsize = (WidenRule m.fallback n).finalWidth ∧
      c.capflag = 0 ∧
      ∀ p, ∀ tr ∈ keyTranslation ⟨t, norm, n, p⟩,
        tr.fallbackConversion.nativeFormat = fl.declflag := by
  rcases mem_vertexAttribTypes ht with rfl | rfl | rfl | rfl | rfl | rfl <;>
    rcases mem_componentCounts hn with rfl | rfl | rfl | rfl <;> cases norm <;>
    (refine ⟨_, _, _, rfl, rfl, rfl, rfl, rfl, rfl, rfl, ?_⟩
     intro p
     unfold keyTranslation
     dsimp only
     decide)

/-- C5, at an input: the key (unsigned short, normalized, 3 components). -/
theorem fallback_requires_no_capability_witness :
    GL_UNSIGNED_SHORT ∈ vertexAttribTypes ∧ 3 ∈ componentCounts ∧
    ∃ m fl c, VertexTypeMapping GL_UNSIGNED_SHORT true = some m ∧
      VertexTypeFlags m.fallback (WidenRule m.fallback 3).finalWidth = some fl ∧
      fl.capflag = 0 ∧
      Converter GL_UNSIGNED_SHORT true 3 .UseFallback = some c ∧
      c.d3dtype = m.fallback ∧ c.d3dsize = (WidenRule m.fallback 3).finalWidth ∧
      c.capflag = 0 ∧
      ∀ p, ∀ tr ∈ keyTranslation ⟨GL_UNSIGNED_SHORT, true, 3, p⟩,
        tr.fallbackConversion.nativeFormat = fl.declflag :=
  ⟨by decide, by decide,
    fallback_requires_no_capability GL_UNSIGNED_SHORT (by decide) true 3 (by decide)⟩

/-- C6: from every cache state, for every bitmask and every vertex format, a second call of
`GetVertexFormatInfo` with the same arguments returns a descriptor equal to the first in all
five fields, and leaves the cached bitmask and the cached table as the first call left them. -/
theorem getVertexFormatInfo_idempotent (s : StaticState) (b : DWORD) (vf : GLVertexFormat) :
    (GetVertexFormatInfo (GetVertexFormatInfo s b vf).2 b vf).1 = (GetVertexFormatInfo s b vf).1 ∧
    (GetVertexFormatInfo (GetVertexFormatInfo s b vf).2 b vf).2.initializedDeclTypes =
      (GetVertexFormatInfo s b vf).2.initializedDeclTypes ∧
    (GetVertexFormatInfo (GetVertexFormatInfo s b vf).2 b vf).2.formatConverters =
      (GetVertexFormatInfo s b vf).2.formatConverters := by
  have hb : (GetVertexFormatInfo s b vf).2.initializedDeclTypes = b := by
    by_cases h : s.initializedDeclTypes = b
    · rw [GetVertexFormatInfo_of_eq s b vf h]; exact h
    · rw [GetVertexFormatInfo_of_ne s b vf h]
  have h1 : (GetVertexFormatInfo s b vf).1 = (GetVertexFormatInfo s b vf).2.formatConverters.lookup vf := by
    by_cases h : s.initializedDeclTypes = b
    · rw [GetVertexFormatInfo_of_eq s b vf h]
    · rw [GetVertexFormatInfo_of_ne s b vf h]
  rw [GetVertexFormatInfo_of_eq _ b vf hb]
  exact ⟨h1.symm, rfl, rfl⟩

/-- C7, at the failing input: the first call of the process with the bitmask 0, for the key
(unsigned byte, normalized, 3 components), returns the default-constructed element, while the
table a rebuild for the bitmask 0 produces holds the 12-byte three-component float conversion
for that key; the two differ. -/
theorem first_call_zero_bitmask_differs_from_rebuild :
    (GetVertexFormatInfo StaticState.initial 0 ⟨GL_UNSIGNED_BYTE, true, 3, false⟩).1 =
      VertexFormat.default ∧
    ((rebuildFormatConverters 0 StaticState.initial.formatConverters).lookup
      ⟨GL_UNSIGNED_BYTE, true, 3, false⟩).nativeFormat = D3DDECLTYPE_FLOAT3 ∧
    ((rebuildFormatConverters 0 StaticState.initial.formatConverters).lookup
      ⟨GL_UNSIGNED_BYTE, true, 3, false⟩).outputElementSize = 12 ∧
    (GetVertexFormatInfo StaticState.initial 0 ⟨GL_UNSIGNED_BYTE, true, 3, false⟩).1 ≠
      (rebuildFormatConverters 0 StaticState.initial.formatConverters).lookup
        ⟨GL_UNSIGNED_BYTE, true, 3, false⟩ := by
  decide

/-- C8: for every D3D vertex type and every requested component count from 1 to 4, the final
width `WidenRule` gives is at least the requested count, `VertexTypeFlags` has a declaration type
for it, and no smaller count from the requested one on has one; the width is the requested count
for float, 2 for counts 1 and 2 and 4 for counts 3 and 4 for the three short types, and 4 for
the two unsigned byte types. -/
theorem widenRule_smallest_legal_count (t : D3DVertexType) (n : Nat)
    (hn : n ∈ componentCounts) :
    n ≤ (WidenRule t n).finalWidth ∧
    (VertexTypeFlags t (WidenRule t n).finalWidth).isSome = true ∧
    (∀ m, n ≤ m → (VertexTypeFlags t m).isSome = true → (WidenRule t n).finalWidth ≤ m) ∧
    (t = D3DVT_FLOAT → (WidenRule t n).finalWidth = n) ∧
    (t = D3DVT_SHORT ∨ t = D3DVT_SHORT_NORM ∨ t = D3DVT_USHORT_NORM →
      (WidenRule t n).finalWidth = if n ≤ 2 then 2 else 4) ∧
    (t = D3DVT_UBYTE ∨ t = D3DVT_UBYTE_NORM → (WidenRule t n).finalWidth = 4) := by
  have hmin : ∀ m, n ≤ m → (VertexTypeFlags t m).isSome = true →
      (WidenRule t n).finalWidth ≤ m := by
    intro m hm hsome
    obtain ⟨fl, hfl⟩ := Option.isSome_iff_exists.mp hsome
    rcases VertexTypeFlags_size hfl with rfl | rfl | rfl | rfl <;>
      rcases mem_componentCounts hn with rfl | rfl | rfl | rfl <;>
      cases t <;> first | omega | decide | (exact absurd hsome (by decide))
  refine ⟨?_, ?_, hmin, ?_, ?_, ?_⟩ <;>
    rcases mem_componentCounts hn with rfl | rfl | rfl | rfl <;> cases t <;> decide

/-- C8, at an input: normalized short with 3 components. -/
theorem widenRule_smallest_legal_count_witness :
    3 ∈ componentCounts ∧
    3 ≤ (WidenRule D3DVT_SHORT_NORM 3).finalWidth ∧
    (VertexTypeFlags D3DVT_SHORT_NORM (WidenRule D3DVT_SHORT_NORM 3).finalWidth).isSome = true ∧
    (∀ m, 3 ≤ m → (VertexTypeFlags D3DVT_SHORT_NORM m).isSome = true →
      (WidenRule D3DVT_SHORT_NORM 3).finalWidth ≤ m) ∧
    (D3DVT_SHORT_NORM = D3DVT_FLOAT → (WidenRule D3DVT_SHORT_NORM 3).finalWidth = 3) ∧
    (D3DVT_SHORT_NORM = D3DVT_SHORT ∨ D3DVT_SHORT_NORM = D3DVT_SHORT_NORM ∨
        D3DVT_SHORT_NORM = D3DVT_USHORT_NORM →
      (WidenRule D3DVT_SHORT_NORM 3).finalWidth = if 3 ≤ 2 then 2 else 4) ∧
    (D3DVT_SHORT_NORM = D3DVT_UBYTE ∨ D3DVT_SHORT_NORM = D3DVT_UBYTE_NORM →
      (WidenRule D3DVT_SHORT_NORM 3).finalWidth = 4) :=
  ⟨by decide, widenRule_smallest_legal_count D3DVT_SHORT_NORM 3 (by decide)⟩

/-- C9, counterexample: the preferred resolution of the key (byte, not normalized, 1 component)
is a short widened from 1 to 2 components, and the preferred resolution of the key (unsigned
byte, normalized, 3 components) is a normalized unsigned byte widened from 3 to 4; both are
widened and neither is float. -/
theorem widened_non_float_targets :
    (∃ c, Converter GL_BYTE false 1 .UsePreferred = some c ∧ c.d3dtype = D3DVT_SHORT ∧
      c.d3dsize = 2 ∧ 1 < c.d3dsize ∧ c.d3dtype ≠ D3DVT_FLOAT) ∧
    (∃ c, Converter GL_UNSIGNED_BYTE true 3 .UsePreferred = some c ∧
      c.d3dtype = D3DVT_UBYTE_NORM ∧ c.d3dsize = 4 ∧ 3 < c.d3dsize ∧
      c.d3dtype ≠ D3DVT_FLOAT) := by
  refine ⟨⟨_, rfl, ?_⟩, ⟨_, rfl, ?_⟩⟩ <;> decide

/-- C9, amended: for every key (with either flag in the `Converter` instantiation) and both
rules, the widener of the resolution runs from the requested count to the resolved count, a
float target keeps the requested count, and the resolved count is greater than the requested
one exactly when the target is one of the three short types and the count is odd, or one of
the two unsigned byte types and the count is below 4. -/
theorem padding_only_for_short_and_byte_targets (t : GLenum) (ht : t ∈ vertexAttribTypes)
    (norm : Bool) (n : Nat) (hn : n ∈ componentCounts) (rule : PreferenceRule) :
    ∃ c, Converter t norm n rule = some c ∧
      c.base.widenRule = ⟨n, c.d3dsize⟩ ∧
      (c.d3dtype = D3DVT_FLOAT → c.d3dsize = n) ∧
      (n < c.d3dsize → c.d3dtype ≠ D3DVT_FLOAT) ∧
      (n < c.d3dsize ↔
        ((c.d3dtype = D3DVT_SHORT ∨ c.d3dtype = D3DVT_SHORT_NORM ∨
            c.d3dtype = D3DVT_USHORT_NORM) ∧ n % 2 = 1) ∨
        ((c.d3dtype = D3DVT_UBYTE ∨ c.d3dtype = D3DVT_UBYTE_NORM) ∧ n < 4)) := by
  rcases mem_vertexAttribTypes ht with rfl | rfl | rfl | rfl | rfl | rfl <;>
    rcases mem_componentCounts hn with rfl | rfl | rfl | rfl <;> cases norm <;> cases rule <;>
    exact ⟨_, rfl, by decide⟩

/-- C9 amended, at an input: the preferred resolution of (short, normalized, 1 component). -/
theorem padding_only_for_short_and_byte_targets_witness :
    GL_SHORT ∈ vertexAttribTypes ∧ 1 ∈ componentCounts ∧
    ∃ c, Converter GL_SHORT true 1 .UsePreferred = some c ∧
      c.base.widenRule = ⟨1, c.d3dsize⟩ ∧
      (c.d3dtype = D3DVT_FLOAT → c.d3dsize = 1) ∧
      (1 < c.d3dsize → c.d3dtype ≠ D3DVT_FLOAT) ∧
      (1 < c.d3dsize ↔
        ((c.d3dtype = D3DVT_SHORT ∨ c.d3dtype = D3DVT_SHORT_NORM ∨
            c.d3dtype = D3DVT_USHORT_NORM) ∧ 1 % 2 = 1) ∨
        ((c.d3dtype = D3DVT_UBYTE ∨ c.d3dtype = D3DVT_UBYTE_NORM) ∧ 1 < 4)) :=
  ⟨by decide, by decide,
    padding_only_for_short_and_byte_targets GL_SHORT (by decide) true 1 (by decide)
      .UsePreferred⟩

/-- C10: for every key and both rules, with the normalized flag of the `Converter`
instantiation being the key's own or, in the rows of fixed and float, `false`: when the
resolved D3D vertex type is float the default value rule is `SimpleDefaultValues<float>`
whatever the key's flag, and otherwise it is `NormalizedDefaultValues` of the target C type
when the key's flag is set and `SimpleDefaultValues` of it when not. The simple rule pads the
four positions with 0, 0, 0, 1. -/
theorem defaultVertexValues_rule (t : GLenum) (ht : t ∈ vertexAttribTypes) (norm : Bool)
    (n : Nat) (hn : n ∈ componentCounts) (rule : PreferenceRule) (norm' : Bool)
    (hrow : norm' = norm ∨ ((t = GL_FIXED ∨ t = GL_FLOAT) ∧ norm' = false)) :
    (∃ c, Converter t norm' n rule = some c ∧
      (c.d3dtype = D3DVT_FLOAT →
        c.base.defaultValueRule = .SimpleDefaultValues .float) ∧
      (c.d3dtype ≠ D3DVT_FLOAT →
        c.base.defaultValueRule =
          if norm = true then .NormalizedDefaultValues (D3DToCType c.d3dtype)
          else .SimpleDefaultValues (D3DToCType c.d3dtype))) ∧
    (List.range 4).map SimpleDefaultValues_pad = [0, 0, 0, 1] := by
  refine ⟨?_, by decide⟩
  rcases mem_vertexAttribTypes ht with rfl | rfl | rfl | rfl | rfl | rfl <;>
    rcases mem_componentCounts hn with rfl | rfl | rfl | rfl <;> cases norm <;> cases rule <;>
    cases norm' <;>
    first
    | exact ⟨_, rfl, by decide⟩
    | exact absurd hrow (by decide)

/-- C10, at an input: the fallback resolution of the key (unsigned byte, normalized, 3
components), in its own row. -/
theorem defaultVertexValues_rule_witness :
    GL_UNSIGNED_BYTE ∈ vertexAttribTypes ∧ 3 ∈ componentCounts ∧
    (true = true ∨ ((GL_UNSIGNED_BYTE = GL_FIXED ∨ GL_UNSIGNED_BYTE = GL_FLOAT) ∧ true = false)) ∧
    (∃ c, Converter GL_UNSIGNED_BYTE true 3 .UseFallback = some c ∧
      (c.d3dtype = D3DVT_FLOAT →
        c.base.defaultValueRule = .SimpleDefaultValues .float) ∧
      (c.d3dtype ≠ D3DVT_FLOAT →
        c.base.defaultValueRule =
          if true = true then .NormalizedDefaultValues (D3DToCType c.d3dtype)
          else .SimpleDefaultValues (D3DToCType c.d3dtype))) ∧
    (List.range 4).map SimpleDefaultValues_pad = [0, 0, 0, 1] :=
  ⟨by decide, by decide, by decide,
    defaultVertexValues_rule GL_UNSIGNED_BYTE (by decide) true 3 (by decide) .UseFallback true
      (by decide)⟩

/-- Every `Converter` instantiation over the six types, both flags, the four counts and both
preference rules exists. -/
theorem Converter_isSome (t : GLenum) (ht : t ∈ vertexAttribTypes) (norm : Bool) (n : Nat)
    (hn : n ∈ componentCounts) (rule : PreferenceRule) :
    (Converter t norm n rule).isSome = true := by
  rcases mem_vertexAttribTypes ht with rfl | rfl | rfl | rfl | rfl | rfl <;>
    rcases mem_componentCounts hn with rfl | rfl | rfl | rfl <;> cases norm <;> cases rule <;>
    decide

/-- What the macro `TRANSLATION_FOR_TYPE_NORM_SIZE` expands to when its two `Converter`
instantiations exist. -/
theorem TRANSLATION_FOR_TYPE_NORM_SIZE_eq (t : GLenum) (norm : Bool) (n : Nat)
    (cp cf : ConverterMembers) (hp : Converter t norm n .UsePreferred = some cp)
    (hf : Converter t norm n .UseFallback = some cf) :
    TRANSLATION_FOR_TYPE_NORM_SIZE t norm n =
      some
        { capsFlag := cp.capflag
          preferredConversion :=
            CreateVertexFormatInfo cp.base.identity cp.base.finalSize (some cp.base) cp.declflag
          fallbackConversion :=
            CreateVertexFormatInfo cf.base.identity cf.base.finalSize (some cf.base)
              cf.declflag } := by
  simp [TRANSLATION_FOR_TYPE_NORM_SIZE, TRANSLATION, hp, hf]

/-- The element of `translations` of a key, by preference rule: it exists, the `Converter`
instantiation of the key's row exists, the conversion stored for the rule is what
`CreateVertexFormatInfo` makes of that instantiation, and the stored capability flag is that of
the preferred instantiation. -/
theorem keyTranslation_conversion (vf : GLVertexFormat) (hkey : IsAttributeKey vf)
    (rule : PreferenceRule) :
    ∃ tr c cp, keyTranslation vf = some tr ∧
      Converter vf.type (rowNormalized vf.type vf.normalized) vf.components rule = some c ∧
      Converter vf.type (rowNormalized vf.type vf.normalized) vf.components .UsePreferred =
        some cp ∧
      tr.conversion rule =
        CreateVertexFormatInfo c.base.identity c.base.finalSize (some c.base) c.declflag ∧
      tr.capsFlag = cp.capflag := by
  obtain ⟨cp, hp⟩ := Option.isSome_iff_exists.mp
    (Converter_isSome vf.type hkey.1 (rowNormalized vf.type vf.normalized) vf.components hkey.2
      .UsePreferred)
  obtain ⟨cf, hf⟩ := Option.isSome_iff_exists.mp
    (Converter_isSome vf.type hkey.1 (rowNormalized vf.type vf.normalized) vf.components hkey.2
      .UseFallback)
  have htr := keyTranslation_eq vf hkey
  rw [show (if vf.type = GL_FIXED ∨ vf.type = GL_FLOAT then false else vf.normalized) =
    rowNormalized vf.type vf.normalized from rfl,
    TRANSLATION_FOR_TYPE_NORM_SIZE_eq _ _ _ cp cf hp hf] at htr
  cases rule with
  | UsePreferred => exact ⟨_, cp, cp, htr, hp, hp, rfl, rfl⟩
  | UseFallback => exact ⟨_, cf, cp, htr, hf, hp, rfl, rfl⟩

/-- C11, counterexample: for the key (float, normalized, 2 components) the target is float and
the key is normalized, yet the conversion of both stored descriptors, and of the descriptor a
first call with all capability bits set returns, is `Cast<float, float>`, not `Normalize`. -/
theorem normalized_float_key_uses_cast :
    (keyTranslation ⟨GL_FLOAT, true, 2, false⟩).map
        (fun tr => (tr.preferredConversion.nativeFormat, tr.fallbackConversion.nativeFormat)) =
      some (D3DDECLTYPE_FLOAT2, D3DDECLTYPE_FLOAT2) ∧
    (keyTranslation ⟨GL_FLOAT, true, 2, false⟩).bind
        (fun tr => tr.preferredConversion.copyFunction.map (fun f => f.converter)) =
      some (.Cast .float .float) ∧
    (keyTranslation ⟨GL_FLOAT, true, 2, false⟩).bind
        (fun tr => tr.fallbackConversion.copyFunction.map (fun f => f.converter)) =
      some (.Cast .float .float) ∧
    (GetVertexFormatInfo StaticState.initial 0xFFFFFFFF
        ⟨GL_FLOAT, true, 2, false⟩).1.copyFunction.map (fun f => f.converter) =
      some (.Cast .float .float) ∧
    Conversion.Cast .float .float ≠ Conversion.Normalize .float := by
  decide

/-- C11, amended: for every key and both rules, the conversion of the stored descriptor is
`FixedToFloat<GLint, 16>` when the type is fixed (either flag), `Normalize` of the source C
type when the key is normalized, its type is neither fixed nor float and the target is float,
and `Cast` from the source C type to the target C type in every other case, a float key with
the normalized flag included; a `Cast` is an identity exactly when the two C types are equal. -/
theorem conversion_rule_by_type_flag_target (t : GLenum) (ht : t ∈ vertexAttribTypes)
    (norm : Bool) (n : Nat) (hn : n ∈ componentCounts) (p : Bool) (rule : PreferenceRule) :
    ∃ tr c T, keyTranslation ⟨t, norm, n, p⟩ = some tr ∧
      Converter t (rowNormalized t norm) n rule = some c ∧
      GLToCType t = some T ∧
      (tr.conversion rule).copyFunction = some c.base ∧
      c.base.converter =
        (if t = GL_FIXED then Conversion.FixedToFloat .int 16
         else if norm = true ∧ t ≠ GL_FLOAT ∧ c.d3dtype = D3DVT_FLOAT then .Normalize T
         else .Cast T (D3DToCType c.d3dtype)) ∧
      (c.base.converter.identity = true ↔
        c.base.converter = .Cast T T ∧ T = D3DToCType c.d3dtype) := by
  obtain ⟨tr, c, cp, htr, hc, -, hconv, -⟩ :=
    keyTranslation_conversion ⟨t, norm, n, p⟩ ⟨ht, hn⟩ rule
  dsimp only at htr hc
  have hT : (GLToCType t).isSome = true := by
    rcases mem_vertexAttribTypes ht with rfl | rfl | rfl | rfl | rfl | rfl <;> decide
  obtain ⟨T, hT⟩ := Option.isSome_iff_exists.mp hT
  have hQ : ∀ c ∈ Converter t (rowNormalized t norm) n rule, ∀ T ∈ GLToCType t,
      c.base.converter =
        (if t = GL_FIXED then Conversion.FixedToFloat .int 16
         else if norm = true ∧ t ≠ GL_FLOAT ∧ c.d3dtype = D3DVT_FLOAT then .Normalize T
         else .Cast T (D3DToCType c.d3dtype)) ∧
      (c.base.converter.identity = true ↔
        c.base.converter = .Cast T T ∧ T = D3DToCType c.d3dtype) := by
    rcases mem_vertexAttribTypes ht with rfl | rfl | rfl | rfl | rfl | rfl <;>
      rcases mem_componentCounts hn with rfl | rfl | rfl | rfl <;> cases norm <;>
      cases rule <;> decide
  refine ⟨tr, c, T, htr, hc, hT, ?_, hQ c hc T hT⟩
  rw [hconv]
  rfl

/-- C11 amended, at an input: the fallback of the key (byte, normalized, 2 components). -/
theorem conversion_rule_by_type_flag_target_witness :
    GL_BYTE ∈ vertexAttribTypes ∧ 2 ∈ componentCounts ∧
    ∃ tr c T, keyTranslation ⟨GL_BYTE, true, 2, false⟩ = some tr ∧
      Converter GL_BYTE (rowNormalized GL_BYTE true) 2 .UseFallback = some c ∧
      GLToCType GL_BYTE = some T ∧
      (tr.conversion .UseFallback).copyFunction = some c.base ∧
      c.base.converter =
        (if GL_BYTE = GL_FIXED then Conversion.FixedToFloat .int 16
         else if true = true ∧ GL_BYTE ≠ GL_FLOAT ∧ c.d3dtype = D3DVT_FLOAT then .Normalize T
         else .Cast T (D3DToCType c.d3dtype)) ∧
      (c.base.converter.identity = true ↔
        c.base.converter = .Cast T T ∧ T = D3DToCType c.d3dtype) :=
  ⟨by decide, by decide,
    conversion_rule_by_type_flag_target GL_BYTE (by decide) true 2 (by decide) false
      .UseFallback⟩

/-- C12: for the types fixed and float, for every component count, the element of `translations`
in the normalized row exists and equals the one in the unnormalized row (capability flag and
both conversions), and for every bitmask and whatever the table held before, the rebuilt table
holds equal descriptors for the normalized and the unnormalized key, in all five fields. -/
theorem no_norm_rows_identical (t : GLenum) (ht : t = GL_FIXED ∨ t = GL_FLOAT) (n : Nat)
    (hn : n ∈ componentCounts) (p p' : Bool) (b : DWORD) (fc : FormatConverters) :
    (keyTranslation ⟨t, true, n, p⟩).isSome = true ∧
    keyTranslation ⟨t, true, n, p⟩ = keyTranslation ⟨t, false, n, p'⟩ ∧
    (rebuildFormatConverters b fc).lookup ⟨t, true, n, p⟩ =
      (rebuildFormatConverters b fc).lookup ⟨t, false, n, p'⟩ := by
  have htypes : t ∈ vertexAttribTypes := by
    rcases ht with rfl | rfl <;> decide
  have heq : keyTranslation ⟨t, true, n, p⟩ = keyTranslation ⟨t, false, n, p'⟩ := by
    rcases ht with rfl | rfl <;> rcases mem_componentCounts hn with rfl | rfl | rfl | rfl <;>
      (unfold keyTranslation; dsimp only; decide)
  have hsome := (key_index ⟨t, true, n, p⟩ ⟨htypes, hn⟩).2.2.2.2
  obtain ⟨tr, htr⟩ := Option.isSome_iff_exists.mp hsome
  refine ⟨hsome, heq, ?_⟩
  rw [rebuild_key b fc ⟨t, true, n, p⟩ ⟨htypes, hn⟩ tr htr,
    rebuild_key b fc ⟨t, false, n, p'⟩ ⟨htypes, hn⟩ tr (heq ▸ htr)]

/-- C12, at an input: fixed with 3 components, under the bitmask `D3DDTCAPS_SHORT4N`. -/
theorem no_norm_rows_identical_witness :
    (GL_FIXED = GL_FIXED ∨ GL_FIXED = GL_FLOAT) ∧ 3 ∈ componentCounts ∧
    (keyTranslation ⟨GL_FIXED, true, 3, false⟩).isSome = true ∧
    keyTranslation ⟨GL_FIXED, true, 3, false⟩ = keyTranslation ⟨GL_FIXED, false, 3, false⟩ ∧
    (rebuildFormatConverters D3DDTCAPS_SHORT4N StaticState.initial.formatConverters).lookup
        ⟨GL_FIXED, true, 3, false⟩ =
      (rebuildFormatConverters D3DDTCAPS_SHORT4N StaticState.initial.formatConverters).lookup
        ⟨GL_FIXED, false, 3, false⟩ :=
  ⟨by decide, by decide,
    no_norm_rows_identical GL_FIXED (by decide) 3 (by decide) false false D3DDTCAPS_SHORT4N
      StaticState.initial.formatConverters⟩

/-- Facts on the fields `CreateVertexFormatInfo` sets. -/
theorem CreateVertexFormatInfo_fields (identity : Bool) (elementSize : Nat)
    (copyFunc : VertexCopyFunction) (nativeFormat : D3DDECLTYPE) :
    (CreateVertexFormatInfo identity elementSize copyFunc nativeFormat).conversionType =
        (if identity then VERTEX_CONVERT_NONE else VERTEX_CONVERT_CPU) ∧
      (CreateVertexFormatInfo identity elementSize copyFunc nativeFormat).outputElementSize =
        elementSize ∧
      (CreateVertexFormatInfo identity elementSize copyFunc nativeFormat).copyFunction =
        copyFunc ∧
      (CreateVertexFormatInfo identity elementSize copyFunc nativeFormat).nativeFormat =
        nativeFormat ∧
      (CreateVertexFormatInfo identity elementSize copyFunc nativeFormat).componentType =
        GetDeclTypeComponentType nativeFormat :=
  ⟨rfl, rfl, rfl, rfl, rfl⟩

/-- C13: for every key and both rules, the resolved D3D vertex type is the one the rule takes
from `VertexTypeMapping`, the resolved count is the final width of `WidenRule` at that type,
`VertexTypeFlags` has an entry for the pair, the descriptor's `outputElementSize` is the
resolved count times the component width of the type (4 bytes for float, 2 for the three short
types, 1 for the two unsigned byte types), and its `nativeFormat` is the declaration type of
that entry. -/
theorem output_size_and_native_format (t : GLenum) (ht : t ∈ vertexAttribTypes) (norm : Bool)
    (n : Nat) (hn : n ∈ componentCounts) (p : Bool) (rule : PreferenceRule) :
    ∃ tr c m fl, keyTranslation ⟨t, norm, n, p⟩ = some tr ∧
      Converter t (rowNormalized t norm) n rule = some c ∧
      VertexTypeMapping t norm = some m ∧
      c.d3dtype = rule.type m ∧
      c.d3dsize = (WidenRule c.d3dtype n).finalWidth ∧
      VertexTypeFlags c.d3dtype c.d3dsize = some fl ∧
      (tr.conversion rule).outputElementSize =
        c.d3dsize *
          (match c.d3dtype with
           | D3DVT_FLOAT => 4
           | D3DVT_SHORT | D3DVT_SHORT_NORM | D3DVT_USHORT_NORM => 2
           | D3DVT_UBYTE | D3DVT_UBYTE_NORM => 1) ∧
      (tr.conversion rule).nativeFormat = fl.declflag := by
  obtain ⟨tr, c, cp, htr, hc, -, hconv, -⟩ :=
    keyTranslation_conversion ⟨t, norm, n, p⟩ ⟨ht, hn⟩ rule
  dsimp only at htr hc
  have hm : (VertexTypeMapping t norm).isSome = true := by
    rcases mem_vertexAttribTypes ht with rfl | rfl | rfl | rfl | rfl | rfl <;> cases norm <;>
      decide
  obtain ⟨m, hm⟩ := Option.isSome_iff_exists.mp hm
  have hfl : ∀ c ∈ Converter t (rowNormalized t norm) n rule,
      (VertexTypeFlags c.d3dtype c.d3dsize).isSome = true := by
    rcases mem_vertexAttribTypes ht with rfl | rfl | rfl | rfl | rfl | rfl <;>
      rcases mem_componentCounts hn with rfl | rfl | rfl | rfl <;> cases norm <;>
      cases rule <;> decide
  obtain ⟨fl, hfl⟩ := Option.isSome_iff_exists.mp (hfl c hc)
  have hQ : ∀ c ∈ Converter t (rowNormalized t norm) n rule, ∀ m ∈ VertexTypeMapping t norm,
      ∀ fl ∈ VertexTypeFlags c.d3dtype c.d3dsize,
      c.d3dtype = rule.type m ∧
      c.d3dsize = (WidenRule c.d3dtype n).finalWidth ∧
      c.base.finalSize =
        c.d3dsize *
          (match c.d3dtype with
           | D3DVT_FLOAT => 4
           | D3DVT_SHORT | D3DVT_SHORT_NORM | D3DVT_USHORT_NORM => 2
           | D3DVT_UBYTE | D3DVT_UBYTE_NORM => 1) ∧
      c.declflag = fl.declflag := by
    rcases mem_vertexAttribTypes ht with rfl | rfl | rfl | rfl | rfl | rfl <;>
      rcases mem_componentCounts hn with rfl | rfl | rfl | rfl <;> cases norm <;>
      cases rule <;> decide
  obtain ⟨h1, h2, h3, h4⟩ := hQ c hc m hm fl hfl
  refine ⟨tr, c, m, fl, htr, hc, hm, h1, h2, hfl, ?_, ?_⟩
  · rw [hconv, (CreateVertexFormatInfo_fields _ _ _ _).2.1]
    exact h3
  · rw [hconv, (CreateVertexFormatInfo_fields _ _ _ _).2.2.2.1]
    exact h4

/-- C13, at an input: the preferred resolution of (unsigned short, normalized, 3 components). -/
theorem output_size_and_native_format_witness :
    GL_UNSIGNED_SHORT ∈ vertexAttribTypes ∧ 3 ∈ componentCounts ∧
    ∃ tr c m fl, keyTranslation ⟨GL_UNSIGNED_SHORT, true, 3, false⟩ = some tr ∧
      Converter GL_UNSIGNED_SHORT (rowNormalized GL_UNSIGNED_SHORT true) 3 .UsePreferred =
        some c ∧
      VertexTypeMapping GL_UNSIGNED_SHORT true = some m ∧
      c.d3dtype = PreferenceRule.UsePreferred.type m ∧
      c.d3dsize = (WidenRule c.d3dtype 3).finalWidth ∧
      VertexTypeFlags c.d3dtype c.d3dsize = some fl ∧
      (tr.conversion .UsePreferred).outputElementSize =
        c.d3dsize *
          (match c.d3dtype with
           | D3DVT_FLOAT => 4
           | D3DVT_SHORT | D3DVT_SHORT_NORM | D3DVT_USHORT_NORM => 2
           | D3DVT_UBYTE | D3DVT_UBYTE_NORM => 1) ∧
      (tr.conversion .UsePreferred).nativeFormat = fl.declflag :=
  ⟨by decide, by decide,
    output_size_and_native_format GL_UNSIGNED_SHORT (by decide) true 3 (by decide) false
      .UsePreferred⟩

/-- C14: for every key and both rules, the descriptor's `componentType` depends on the resolved
D3D vertex type alone: `GL_FLOAT` for float, `GL_UNSIGNED_NORMALIZED` for normalized unsigned
byte and normalized unsigned short, `GL_SIGNED_NORMALIZED` for normalized short, `GL_INT` for
short and `GL_UNSIGNED_INT` for unsigned byte; the descriptor's declaration type is one
`GetDeclTypeComponentType` has a `case` for, so its `default` branch is not taken and the
component type is not `GL_NONE`. -/
theorem component_type_by_vertex_type (t : GLenum) (ht : t ∈ vertexAttribTypes) (norm : Bool)
    (n : Nat) (hn : n ∈ componentCounts) (p : Bool) (rule : PreferenceRule) :
    ∃ tr c, keyTranslation ⟨t, norm, n, p⟩ = some tr ∧
      Converter t (rowNormalized t norm) n rule = some c ∧
      (tr.conversion rule).nativeFormat = c.declflag ∧
      (tr.conversion rule).componentType = GetDeclTypeComponentType c.declflag ∧
      (tr.conversion rule).componentType =
        (match c.d3dtype with
         | D3DVT_FLOAT => GL_FLOAT
         | D3DVT_UBYTE_NORM | D3DVT_USHORT_NORM => GL_UNSIGNED_NORMALIZED
         | D3DVT_SHORT_NORM => GL_SIGNED_NORMALIZED
         | D3DVT_SHORT => GL_INT
         | D3DVT_UBYTE => GL_UNSIGNED_INT) ∧
      (tr.conversion rule).nativeFormat ∈ handledDeclTypes ∧
      (tr.conversion rule).componentType ≠ GL_NONE := by
  obtain ⟨tr, c, cp, htr, hc, -, hconv, -⟩ :=
    keyTranslation_conversion ⟨t, norm, n, p⟩ ⟨ht, hn⟩ rule
  dsimp only at htr hc
  have hQ : ∀ c ∈ Converter t (rowNormalized t norm) n rule,
      GetDeclTypeComponentType c.declflag =
        (match c.d3dtype with
         | D3DVT_FLOAT => GL_FLOAT
         | D3DVT_UBYTE_NORM | D3DVT_USHORT_NORM => GL_UNSIGNED_NORMALIZED
         | D3DVT_SHORT_NORM => GL_SIGNED_NORMALIZED
         | D3DVT_SHORT => GL_INT
         | D3DVT_UBYTE => GL_UNSIGNED_INT) ∧
      c.declflag ∈ handledDeclTypes ∧
      GetDeclTypeComponentType c.declflag ≠ GL_NONE := by
    rcases mem_vertexAttribTypes ht with rfl | rfl | rfl | rfl | rfl | rfl <;>
      rcases mem_componentCounts hn with rfl | rfl | rfl | rfl <;> cases norm <;>
      cases rule <;> decide
  obtain ⟨h1, h2, h3⟩ := hQ c hc
  have hn' := (CreateVertexFormatInfo_fields c.base.identity c.base.finalSize (some c.base)
    c.declflag).2.2.2.1
  have hc' := (CreateVertexFormatInfo_fields c.base.identity c.base.finalSize (some c.base)
    c.declflag).2.2.2.2
  rw [← hconv] at hn' hc'
  refine ⟨tr, c, htr, hc, hn', hc', ?_, ?_, ?_⟩
  · rw [hc']; exact h1
  · rw [hn']; exact h2
  · rw [hc']; exact h3

/-- C14, at an input: the preferred resolution of (short, normalized, 1 component). -/
theorem component_type_by_vertex_type_witness :
    GL_SHORT ∈ vertexAttribTypes ∧ 1 ∈ componentCounts ∧
    ∃ tr c, keyTranslation ⟨GL_SHORT, true, 1, false⟩ = some tr ∧
      Converter GL_SHORT (rowNormalized GL_SHORT true) 1 .UsePreferred = some c ∧
      (tr.conversion .UsePreferred).nativeFormat = c.declflag ∧
      (tr.conversion .UsePreferred).componentType = GetDeclTypeComponentType c.declflag ∧
      (tr.conversion .UsePreferred).componentType =
        (match c.d3dtype with
         | D3DVT_FLOAT => GL_FLOAT
         | D3DVT_UBYTE_NORM | D3DVT_USHORT_NORM => GL_UNSIGNED_NORMALIZED
         | D3DVT_SHORT_NORM => GL_SIGNED_NORMALIZED
         | D3DVT_SHORT => GL_INT
         | D3DVT_UBYTE => GL_UNSIGNED_INT) ∧
      (tr.conversion .UsePreferred).nativeFormat ∈ handledDeclTypes ∧
      (tr.conversion .UsePreferred).componentType ≠ GL_NONE :=
  ⟨by decide, by decide,
    component_type_by_vertex_type GL_SHORT (by decide) true 1 (by decide) false .UsePreferred⟩

/-- C15: for every key, the capability flag stored in its `TranslationDescription` is the one
`VertexTypeFlags` pairs with the preferred D3D vertex type at the widened count: for normalized
short it is `D3DDTCAPS_SHORT2N` at counts 1 and 2 and `D3DDTCAPS_SHORT4N` at counts 3 and 4
(and likewise for normalized unsigned short), for unsigned byte it is the bit of the
4-component byte type at every count, and for a preferred type of float or short it is 0. -/
theorem capsFlag_of_preferred_at_widened_count (t : GLenum) (ht : t ∈ vertexAttribTypes)
    (norm : Bool) (n : Nat) (hn : n ∈ componentCounts) (p : Bool) :
    ∃ tr m fl, keyTranslation ⟨t, norm, n, p⟩ = some tr ∧
      VertexTypeMapping t norm = some m ∧
      VertexTypeFlags m.preferred (WidenRule m.preferred n).finalWidth = some fl ∧
      tr.capsFlag = fl.capflag ∧
      (t = GL_SHORT ∧ norm = true →
        tr.capsFlag = if n ≤ 2 then D3DDTCAPS_SHORT2N else D3DDTCAPS_SHORT4N) ∧
      (t = GL_UNSIGNED_SHORT ∧ norm = true →
        tr.capsFlag = if n ≤ 2 then D3DDTCAPS_USHORT2N else D3DDTCAPS_USHORT4N) ∧
      (t = GL_UNSIGNED_BYTE →
        tr.capsFlag = if norm = true then D3DDTCAPS_UBYTE4N else D3DDTCAPS_UBYTE4) ∧
      (m.preferred = D3DVT_FLOAT ∨ m.preferred = D3DVT_SHORT → tr.capsFlag = 0) := by
  obtain ⟨tr, c, cp, htr, -, hp, -, hcap⟩ :=
    keyTranslation_conversion ⟨t, norm, n, p⟩ ⟨ht, hn⟩ .UsePreferred
  dsimp only at htr hp
  have hm : (VertexTypeMapping t norm).isSome = true := by
    rcases mem_vertexAttribTypes ht with rfl | rfl | rfl | rfl | rfl | rfl <;> cases norm <;>
      decide
  obtain ⟨m, hm⟩ := Option.isSome_iff_exists.mp hm
  have hfl : ∀ m ∈ VertexTypeMapping t norm,
      (VertexTypeFlags m.preferred (WidenRule m.preferred n).finalWidth).isSome = true := by
    rcases mem_vertexAttribTypes ht with rfl | rfl | rfl | rfl | rfl | rfl <;>
      rcases mem_componentCounts hn with rfl | rfl | rfl | rfl <;> cases norm <;> decide
  obtain ⟨fl, hfl⟩ := Option.isSome_iff_exists.mp (hfl m hm)
  have hQ : ∀ cp ∈ Converter t (rowNormalized t norm) n .UsePreferred,
      ∀ m ∈ VertexTypeMapping t norm,
      ∀ fl ∈ VertexTypeFlags m.preferred (WidenRule m.preferred n).finalWidth,
      cp.capflag = fl.capflag ∧
      (t = GL_SHORT ∧ norm = true →
        cp.capflag = if n ≤ 2 then D3DDTCAPS_SHORT2N else D3DDTCAPS_SHORT4N) ∧
      (t = GL_UNSIGNED_SHORT ∧ norm = true →
        cp.capflag = if n ≤ 2 then D3DDTCAPS_USHORT2N else D3DDTCAPS_USHORT4N) ∧
      (t = GL_UNSIGNED_BYTE →
        cp.capflag = if norm = true then D3DDTCAPS_UBYTE4N else D3DDTCAPS_UBYTE4) ∧
      (m.preferred = D3DVT_FLOAT ∨ m.preferred = D3DVT_SHORT → cp.capflag = 0) := by
    rcases mem_vertexAttribTypes ht with rfl | rfl | rfl | rfl | rfl | rfl <;>
      rcases mem_componentCounts hn with rfl | rfl | rfl | rfl <;> cases norm <;> decide
  have h := hQ cp hp m hm fl hfl
  rw [← hcap] at h
  exact ⟨tr, m, fl, htr, hm, hfl, h⟩

/-- C15, at an input: the key (short, normalized, 3 components), whose flag is that of the
4-component normalized short type. -/
theorem capsFlag_of_preferred_at_widened_count_witness :
    GL_SHORT ∈ vertexAttribTypes ∧ 3 ∈ componentCounts ∧
    ∃ tr m fl, keyTranslation ⟨GL_SHORT, true, 3, false⟩ = some tr ∧
      VertexTypeMapping GL_SHORT true = some m ∧
      VertexTypeFlags m.preferred (WidenRule m.preferred 3).finalWidth = some fl ∧
      tr.capsFlag = fl.capflag ∧
      (GL_SHORT = GL_SHORT ∧ true = true →
        tr.capsFlag = if 3 ≤ 2 then D3DDTCAPS_SHORT2N else D3DDTCAPS_SHORT4N) ∧
      (GL_SHORT = GL_UNSIGNED_SHORT ∧ true = true →
        tr.capsFlag = if 3 ≤ 2 then D3DDTCAPS_USHORT2N else D3DDTCAPS_USHORT4N) ∧
      (GL_SHORT = GL_UNSIGNED_BYTE →
        tr.capsFlag = if true = true then D3DDTCAPS_UBYTE4N else D3DDTCAPS_UBYTE4) ∧
      (m.preferred = D3DVT_FLOAT ∨ m.preferred = D3DVT_SHORT → tr.capsFlag = 0) :=
  ⟨by decide, by decide,
    capsFlag_of_preferred_at_widened_count GL_SHORT (by decide) true 3 (by decide) false⟩

/-- C16, counterexample: a first call with the bitmask `D3DDTCAPS_UBYTE4`, which lacks the
`D3DDTCAPS_UBYTE4N` bit, for the key (unsigned byte, normalized, 3 components) returns a
three-component float declaration of 12 bytes whose widener runs from 3 to 3 components: not
four components, not 16 bytes. -/
theorem uint8_norm3_fallback_is_float3 :
    D3DDTCAPS_UBYTE4 &&& D3DDTCAPS_UBYTE4N = 0 ∧
    (GetVertexFormatInfo StaticState.initial D3DDTCAPS_UBYTE4
        ⟨GL_UNSIGNED_BYTE, true, 3, false⟩).1.nativeFormat = D3DDECLTYPE_FLOAT3 ∧
    (GetVertexFormatInfo StaticState.initial D3DDTCAPS_UBYTE4
        ⟨GL_UNSIGNED_BYTE, true, 3, false⟩).1.outputElementSize = 12 ∧
    (GetVertexFormatInfo StaticState.initial D3DDTCAPS_UBYTE4
        ⟨GL_UNSIGNED_BYTE, true, 3, false⟩).1.copyFunction.map (fun f => f.widenRule) =
      some ⟨3, 3⟩ ∧
    (GetVertexFormatInfo StaticState.initial D3DDTCAPS_UBYTE4
        ⟨GL_UNSIGNED_BYTE, true, 3, false⟩).1.nativeFormat ≠ D3DDECLTYPE_FLOAT4 ∧
    (GetVertexFormatInfo StaticState.initial D3DDTCAPS_UBYTE4
        ⟨GL_UNSIGNED_BYTE, true, 3, false⟩).1.outputElementSize ≠ 16 := by
  decide

/-- C16, amended: for every bitmask without the `D3DDTCAPS_UBYTE4N` bit, the table built for
it, and a call whose bitmask differs from the cached one, hold for the key (unsigned byte,
normalized, 3 components) the fallback float descriptor at the requested count: a
three-component float declaration of 12 bytes, converted on the CPU by `Normalize` of unsigned
char, with no component added (the widener runs from 3 to 3). -/
theorem uint8_norm3_without_ubyte4n (b : DWORD) (hb : b &&& D3DDTCAPS_UBYTE4N = 0)
    (fc : FormatConverters) (p : Bool) :
    (rebuildFormatConverters b fc).lookup ⟨GL_UNSIGNED_BYTE, true, 3, p⟩ =
      { conversionType := VERTEX_CONVERT_CPU
        outputElementSize := 12
        copyFunction :=
          some
            { InT := .unsigned_char
              widenRule := ⟨3, 3⟩
              converter := .Normalize .unsigned_char
              defaultValueRule := .SimpleDefaultValues .float }
        nativeFormat := D3DDECLTYPE_FLOAT3
        componentType := GL_FLOAT } ∧
    ∀ s : StaticState, s.initializedDeclTypes ≠ b →
      (GetVertexFormatInfo s b ⟨GL_UNSIGNED_BYTE, true, 3, p⟩).1 =
        (rebuildFormatConverters b fc).lookup ⟨GL_UNSIGNED_BYTE, true, 3, p⟩ := by
  have hkey : IsAttributeKey ⟨GL_UNSIGNED_BYTE, true, 3, p⟩ :=
    ⟨(by decide : GL_UNSIGNED_BYTE ∈ vertexAttribTypes), (by decide : 3 ∈ componentCounts)⟩
  obtain ⟨tr, htr⟩ := Option.isSome_iff_exists.mp (key_index _ hkey).2.2.2.2
  have hQ : ∀ tr ∈ keyTranslation ⟨GL_UNSIGNED_BYTE, true, 3, p⟩,
      tr.capsFlag = D3DDTCAPS_UBYTE4N ∧
      tr.fallbackConversion =
        { conversionType := VERTEX_CONVERT_CPU
          outputElementSize := 12
          copyFunction :=
            some
              { InT := .unsigned_char
                widenRule := ⟨3, 3⟩
                converter := .Normalize .unsigned_char
                defaultValueRule := .SimpleDefaultValues .float }
          nativeFormat := D3DDECLTYPE_FLOAT3
          componentType := GL_FLOAT } := by
    unfold keyTranslation
    dsimp only
    decide
  obtain ⟨hcap, hfb⟩ := hQ tr htr
  have hsel : selectConversion b tr = tr.fallbackConversion := by
    unfold selectConversion
    rw [hcap, if_neg]
    intro h
    rcases h with h | h
    · exact absurd h (by decide)
    · exact h hb
  refine ⟨?_, ?_⟩
  · rw [rebuild_key b fc _ hkey tr htr, hsel, hfb]
  · intro s hs
    rw [GetVertexFormatInfo_of_ne s b _ hs, rebuild_key b fc _ hkey tr htr,
      rebuild_key b s.formatConverters _ hkey tr htr]

/-- C16 amended, at an input: the bitmask with the five other capability bits set. -/
theorem uint8_norm3_without_ubyte4n_witness :
    (0x3D : DWORD) &&& D3DDTCAPS_UBYTE4N = 0 ∧
    (rebuildFormatConverters 0x3D StaticState.initial.formatConverters).lookup
        ⟨GL_UNSIGNED_BYTE, true, 3, false⟩ =
      { conversionType := VERTEX_CONVERT_CPU
        outputElementSize := 12
        copyFunction :=
          some
            { InT := .unsigned_char
              widenRule := ⟨3, 3⟩
              converter := .Normalize .unsigned_char
              defaultValueRule := .SimpleDefaultValues .float }
        nativeFormat := D3DDECLTYPE_FLOAT3
        componentType := GL_FLOAT } ∧
    ∀ s : StaticState, s.initializedDeclTypes ≠ 0x3D →
      (GetVertexFormatInfo s 0x3D ⟨GL_UNSIGNED_BYTE, true, 3, false⟩).1 =
        (rebuildFormatConverters 0x3D StaticState.initial.formatConverters).lookup
          ⟨GL_UNSIGNED_BYTE, true, 3, false⟩ :=
  ⟨by decide,
    uint8_norm3_without_ubyte4n 0x3D (by decide) StaticState.initial.formatConverters false⟩

/-- C17: for the type float, every component count from 1 to 4, either normalized flag and
every bitmask, the table built for the bitmask holds for the key a descriptor with conversion
type `VERTEX_CONVERT_NONE`, `outputElementSize` 4 times the count (8 for two components), the
declaration type `VertexTypeFlags` gives float at that very count, component type `GL_FLOAT`,
and a copy function that casts float to float with a widener from the count to itself. -/
theorem float_keys_resolve_to_identity (n : Nat) (hn : n ∈ componentCounts) (norm p : Bool)
    (b : DWORD) (fc : FormatConverters) :
    ∃ fl, VertexTypeFlags D3DVT_FLOAT n = some fl ∧
      (rebuildFormatConverters b fc).lookup ⟨GL_FLOAT, norm, n, p⟩ =
        { conversionType := VERTEX_CONVERT_NONE
          outputElementSize := 4 * n
          copyFunction :=
            some
              { InT := .float
                widenRule := ⟨n, n⟩
                converter := .Cast .float .float
                defaultValueRule := .SimpleDefaultValues .float }
          nativeFormat := fl.declflag
          componentType := GL_FLOAT } ∧
      (n = 2 →
        ((rebuildFormatConverters b fc).lookup ⟨GL_FLOAT, norm, n, p⟩).outputElementSize = 8) := by
  have hkey : IsAttributeKey ⟨GL_FLOAT, norm, n, p⟩ :=
    ⟨(by decide : GL_FLOAT ∈ vertexAttribTypes), hn⟩
  obtain ⟨tr, htr⟩ := Option.isSome_iff_exists.mp (key_index _ hkey).2.2.2.2
  have hfl : (VertexTypeFlags D3DVT_FLOAT n).isSome = true := by
    rcases mem_componentCounts hn with rfl | rfl | rfl | rfl <;> decide
  obtain ⟨fl, hfl⟩ := Option.isSome_iff_exists.mp hfl
  have hQ : ∀ tr ∈ keyTranslation ⟨GL_FLOAT, norm, n, p⟩,
      ∀ fl ∈ VertexTypeFlags D3DVT_FLOAT n,
      tr.capsFlag = 0 ∧
      tr.preferredConversion =
        { conversionType := VERTEX_CONVERT_NONE
          outputElementSize := 4 * n
          copyFunction :=
            some
              { InT := .float
                widenRule := ⟨n, n⟩
                converter := .Cast .float .float
                defaultValueRule := .SimpleDefaultValues .float }
          nativeFormat := fl.declflag
          componentType := GL_FLOAT } := by
    rcases mem_componentCounts hn with rfl | rfl | rfl | rfl <;> cases norm <;>
      (unfold keyTranslation; dsimp only; decide)
  obtain ⟨hcap, hpref⟩ := hQ tr htr fl hfl
  have hsel : selectConversion b tr = tr.preferredConversion := by
    unfold selectConversion
    rw [if_pos (Or.inl hcap)]
  have hlook := rebuild_key b fc _ hkey tr htr
  rw [hsel, hpref] at hlook
  refine ⟨fl, hfl, hlook, ?_⟩
  intro h2
  rw [hlook, h2]

/-- C17, at an input: float with 2 components, not normalized, under the bitmask 0. -/
theorem float_keys_resolve_to_identity_witness :
    2 ∈ componentCounts ∧
    ∃ fl, VertexTypeFlags D3DVT_FLOAT 2 = some fl ∧
      (rebuildFormatConverters 0 StaticState.initial.formatConverters).lookup
          ⟨GL_FLOAT, false, 2, false⟩ =
        { conversionType := VERTEX_CONVERT_NONE
          outputElementSize := 4 * 2
          copyFunction :=
            some
              { InT := .float
                widenRule := ⟨2, 2⟩
                converter := .Cast .float .float
                defaultValueRule := .SimpleDefaultValues .float }
          nativeFormat := fl.declflag
          componentType := GL_FLOAT } ∧
      (2 = 2 →
        ((rebuildFormatConverters 0 StaticState.initial.formatConverters).lookup
          ⟨GL_FLOAT, false, 2, false⟩).outputElementSize = 8) :=
  ⟨by decide,
    float_keys_resolve_to_identity 2 (by decide) false false 0
      StaticState.initial.formatConverters⟩

/-- C20, at the failing input: `VertexTypeMapping` gives unnormalized unsigned byte the
fallback float, not short; the fallback conversion stored for each of the four counts has a
float declaration type, and a first call with the bitmask `D3DDTCAPS_UBYTE4N`, which lacks the
`D3DDTCAPS_UBYTE4` bit, returns for two components a `D3DDECLTYPE_FLOAT2` descriptor that casts
unsigned char to float. -/
theorem unsigned_byte_fallback_is_float :
    VertexTypeMapping GL_UNSIGNED_BYTE false = some ⟨D3DVT_UBYTE, D3DVT_FLOAT⟩ ∧
    componentCounts.map
        (fun n => (keyTranslation ⟨GL_UNSIGNED_BYTE, false, n, false⟩).map
          (fun tr => tr.fallbackConversion.nativeFormat)) =
      [some D3DDECLTYPE_FLOAT1, some D3DDECLTYPE_FLOAT2, some D3DDECLTYPE_FLOAT3,
       some D3DDECLTYPE_FLOAT4] ∧
    D3DDTCAPS_UBYTE4N &&& D3DDTCAPS_UBYTE4 = 0 ∧
    (GetVertexFormatInfo StaticState.initial D3DDTCAPS_UBYTE4N
        ⟨GL_UNSIGNED_BYTE, false, 2, false⟩).1.nativeFormat = D3DDECLTYPE_FLOAT2 ∧
    (GetVertexFormatInfo StaticState.initial D3DDTCAPS_UBYTE4N
        ⟨GL_UNSIGNED_BYTE, false, 2, false⟩).1.copyFunction.map (fun f => f.converter) =
      some (.Cast .unsigned_char .float) ∧
    (GetVertexFormatInfo StaticState.initial D3DDTCAPS_UBYTE4N
        ⟨GL_UNSIGNED_BYTE, false, 2, false⟩).1.nativeFormat ≠ D3DDECLTYPE_SHORT2 := by
  decide

set_option maxRecDepth 100000 in
/-- The keys of the built texture format map are the internal formats of the rows, in source
order: no row is dropped as a duplicate. -/
theorem BuildD3D9FormatMap_keys :
    BuildD3D9FormatMap.map Prod.fst = d3d9FormatRows.map (fun row => row.internalFormat) := by
  decide

set_option maxRecDepth 100000 in
/-- What `GetTextureFormatInfo` returns for the internal format of each row. -/
theorem GetTextureFormatInfo_rows :
    ∀ row ∈ d3d9FormatRows,
      (GetTextureFormatInfo row.internalFormat).texFormat = row.texFormat ∧
      (GetTextureFormatInfo row.internalFormat).renderFormat = row.renderFormat ∧
      (GetTextureFormatInfo row.internalFormat).loadFunction = row.loadFunction ∧
      ((GetTextureFormatInfo row.internalFormat).dataInitializerFunction ≠ none ↔
        row.internalFormat = GL_RGB16F ∨ row.internalFormat = GL_RGB32F) := by
  decide

set_option maxRecDepth 100000 in
/-- The data initializers `GetTextureFormatInfo` returns for `GL_RGB16F` and `GL_RGB32F`. -/
theorem GetTextureFormatInfo_initializers :
    (GetTextureFormatInfo GL_RGB16F).dataInitializerFunction =
      some (.mk .GLhalf 0 0 0 .Float16One) ∧
    (GetTextureFormatInfo GL_RGB32F).dataInitializerFunction =
      some (.mk .GLfloat 0 0 0 .Float32One) := by
  decide

/-- An internal format that is not a key of the built map gets the default format. -/
theorem GetTextureFormatInfo_of_not_key (internalFormat : GLenum)
    (h : internalFormat ∉ BuildD3D9FormatMap.map Prod.fst) :
    GetTextureFormatInfo internalFormat = TextureFormat.default := by
  have hnone : BuildD3D9FormatMap.lookup internalFormat = none := by
    rw [List.lookup_eq_none_iff]
    intro q hq
    have hne : internalFormat ≠ q.1 := by
      intro heq
      exact h (heq ▸ List.mem_map_of_mem Prod.fst hq)
    simpa using hne
  unfold GetTextureFormatInfo
  rw [hnone]

/-- C26: `GetTextureFormatInfo` returns a format for every internal format. For one that is
not a key of the format map it returns the default `TextureFormat`, whose texture and render
formats are `D3DFMT_UNKNOWN`, whose data initializer is null and whose load function is
`UnreachableLoad`. The keys of the map are the internal formats of the 44 rows of
`BuildD3D9FormatMap`, and for each row it returns the row's texture format, render format and
load function, with a non-null data initializer exactly for `GL_RGB16F` and `GL_RGB32F`, both of
which are rows. -/
theorem getTextureFormatInfo_total :
    (∀ internalFormat : GLenum, internalFormat ∉ BuildD3D9FormatMap.map Prod.fst →
      GetTextureFormatInfo internalFormat = TextureFormat.default) ∧
    TextureFormat.default =
      { texFormat := .D3DFMT_UNKNOWN
        renderFormat := .D3DFMT_UNKNOWN
        dataInitializerFunction := none
        loadFunction := .UnreachableLoad } ∧
    BuildD3D9FormatMap.map Prod.fst = d3d9FormatRows.map (fun row => row.internalFormat) ∧
    d3d9FormatRows.length = 44 ∧
    (∀ row ∈ d3d9FormatRows,
      (GetTextureFormatInfo row.internalFormat).texFormat = row.texFormat ∧
      (GetTextureFormatInfo row.internalFormat).renderFormat = row.renderFormat ∧
      (GetTextureFormatInfo row.internalFormat).loadFunction = row.loadFunction ∧
      ((GetTextureFormatInfo row.internalFormat).dataInitializerFunction ≠ none ↔
        row.internalFormat = GL_RGB16F ∨ row.internalFormat = GL_RGB32F)) ∧
    (GetTextureFormatInfo GL_RGB16F).dataInitializerFunction =
      some (.mk .GLhalf 0 0 0 .Float16One) ∧
    (GetTextureFormatInfo GL_RGB32F).dataInitializerFunction =
      some (.mk .GLfloat 0 0 0 .Float32One) :=
  ⟨GetTextureFormatInfo_of_not_key, rfl, BuildD3D9FormatMap_keys, rfl,
    GetTextureFormatInfo_rows, GetTextureFormatInfo_initializers⟩

/-- C21: for every key and both rules, the descriptor's conversion type is
`VERTEX_CONVERT_NONE` exactly when its conversion is a `Cast` between equal C types, the source
C type being that of the resolved D3D vertex type, and the resolved count equals the requested
count; such a `Cast` arises exactly for unsigned byte with either unsigned byte type, short
with either short type, unsigned short with normalized unsigned short, and float with float;
every other descriptor has `VERTEX_CONVERT_CPU`. -/
theorem conversion_none_iff_same_storage_and_count (t : GLenum) (ht : t ∈ vertexAttribTypes)
    (norm : Bool) (n : Nat) (hn : n ∈ componentCounts) (p : Bool) (rule : PreferenceRule) :
    ∃ tr c T, keyTranslation ⟨t, norm, n, p⟩ = some tr ∧
      Converter t (rowNormalized t norm) n rule = some c ∧
      GLToCType t = some T ∧
      ((tr.conversion rule).conversionType = VERTEX_CONVERT_NONE ↔ c.base.identity = true) ∧
      ((tr.conversion rule).conversionType = VERTEX_CONVERT_NONE ↔
        c.base.converter = .Cast T T ∧ T = D3DToCType c.d3dtype ∧ c.d3dsize = n) ∧
      (c.base.converter = .Cast T T ∧ T = D3DToCType c.d3dtype ↔
        (t = GL_UNSIGNED_BYTE ∧ (c.d3dtype = D3DVT_UBYTE ∨ c.d3dtype = D3DVT_UBYTE_NORM)) ∨
        (t = GL_SHORT ∧ (c.d3dtype = D3DVT_SHORT ∨ c.d3dtype = D3DVT_SHORT_NORM)) ∨
        (t = GL_UNSIGNED_SHORT ∧ c.d3dtype = D3DVT_USHORT_NORM) ∨
        (t = GL_FLOAT ∧ c.d3dtype = D3DVT_FLOAT)) ∧
      ((tr.conversion rule).conversionType ≠ VERTEX_CONVERT_NONE →
        (tr.conversion rule).conversionType = VERTEX_CONVERT_CPU) := by
  obtain ⟨tr, c, cp, htr, hc, -, hconv, -⟩ :=
    keyTranslation_conversion ⟨t, norm, n, p⟩ ⟨ht, hn⟩ rule
  dsimp only at htr hc
  have hT : (GLToCType t).isSome = true := by
    rcases mem_vertexAttribTypes ht with rfl | rfl | rfl | rfl | rfl | rfl <;> decide
  obtain ⟨T, hT⟩ := Option.isSome_iff_exists.mp hT
  have hQ : ∀ c ∈ Converter t (rowNormalized t norm) n rule, ∀ T ∈ GLToCType t,
      (c.base.identity = true ↔
        c.base.converter = .Cast T T ∧ T = D3DToCType c.d3dtype ∧ c.d3dsize = n) ∧
      (c.base.converter = .Cast T T ∧ T = D3DToCType c.d3dtype ↔
        (t = GL_UNSIGNED_BYTE ∧ (c.d3dtype = D3DVT_UBYTE ∨ c.d3dtype = D3DVT_UBYTE_NORM)) ∨
        (t = GL_SHORT ∧ (c.d3dtype = D3DVT_SHORT ∨ c.d3dtype = D3DVT_SHORT_NORM)) ∨
        (t = GL_UNSIGNED_SHORT ∧ c.d3dtype = D3DVT_USHORT_NORM) ∨
        (t = GL_FLOAT ∧ c.d3dtype = D3DVT_FLOAT)) := by
    rcases mem_vertexAttribTypes ht with rfl | rfl | rfl | rfl | rfl | rfl <;>
      rcases mem_componentCounts hn with rfl | rfl | rfl | rfl <;> cases norm <;>
      cases rule <;> decide
  obtain ⟨h1, h2⟩ := hQ c hc T hT
  have hct : (tr.conversion rule).conversionType =
      (if c.base.identity then VERTEX_CONVERT_NONE else VERTEX_CONVERT_CPU) := by
    rw [hconv]
    exact (CreateVertexFormatInfo_fields _ _ _ _).1
  have hiff : (tr.conversion rule).conversionType = VERTEX_CONVERT_NONE ↔
      c.base.identity = true := by
    rw [hct]
    cases c.base.identity <;> simp
  refine ⟨tr, c, T, htr, hc, hT, hiff, hiff.trans h1, h2, ?_⟩
  rw [hct]
  cases c.base.identity <;> simp

/-- C21, at an input: the preferred resolution of (unsigned byte, not normalized, 4
components), which needs no conversion. -/
theorem conversion_none_iff_same_storage_and_count_witness :
    GL_UNSIGNED_BYTE ∈ vertexAttribTypes ∧ 4 ∈ componentCounts ∧
    ∃ tr c T, keyTranslation ⟨GL_UNSIGNED_BYTE, false, 4, false⟩ = some tr ∧
      Converter GL_UNSIGNED_BYTE (rowNormalized GL_UNSIGNED_BYTE false) 4 .UsePreferred =
        some c ∧
      GLToCType GL_UNSIGNED_BYTE = some T ∧
      ((tr.conversion .UsePreferred).conversionType = VERTEX_CONVERT_NONE ↔
        c.base.identity = true) ∧
      ((tr.conversion .UsePreferred).conversionType = VERTEX_CONVERT_NONE ↔
        c.base.converter = .Cast T T ∧ T = D3DToCType c.d3dtype ∧ c.d3dsize = 4) ∧
      (c.base.converter = .Cast T T ∧ T = D3DToCType c.d3dtype ↔
        (GL_UNSIGNED_BYTE = GL_UNSIGNED_BYTE ∧
          (c.d3dtype = D3DVT_UBYTE ∨ c.d3dtype = D3DVT_UBYTE_NORM)) ∨
        (GL_UNSIGNED_BYTE = GL_SHORT ∧
          (c.d3dtype = D3DVT_SHORT ∨ c.d3dtype = D3DVT_SHORT_NORM)) ∨
        (GL_UNSIGNED_BYTE = GL_UNSIGNED_SHORT ∧ c.d3dtype = D3DVT_USHORT_NORM) ∨
        (GL_UNSIGNED_BYTE = GL_FLOAT ∧ c.d3dtype = D3DVT_FLOAT)) ∧
      ((tr.conversion .UsePreferred).conversionType ≠ VERTEX_CONVERT_NONE →
        (tr.conversion .UsePreferred).conversionType = VERTEX_CONVERT_CPU) :=
  ⟨by decide, by decide,
    conversion_none_iff_same_storage_and_count GL_UNSIGNED_BYTE (by decide) false 4 (by decide)
      false .UsePreferred⟩

/-- C24: for every key and both rules, the descriptor's component type fits the key: with the
normalized flag set it is neither `GL_INT` nor `GL_UNSIGNED_INT`; with the flag clear it is
neither `GL_SIGNED_NORMALIZED` nor `GL_UNSIGNED_NORMALIZED`; for the unsigned types (unsigned
byte, unsigned short) it is neither `GL_INT` nor `GL_SIGNED_NORMALIZED`; for the signed types
(byte, short, fixed, float) it is neither `GL_UNSIGNED_INT` nor `GL_UNSIGNED_NORMALIZED`. -/
theorem component_type_consistent_with_key (t : GLenum) (ht : t ∈ vertexAttribTypes)
    (norm : Bool) (n : Nat) (hn : n ∈ componentCounts) (p : Bool) (rule : PreferenceRule) :
    ∃ tr, keyTranslation ⟨t, norm, n, p⟩ = some tr ∧
      (norm = true →
        (tr.conversion rule).componentType ≠ GL_INT ∧
        (tr.conversion rule).componentType ≠ GL_UNSIGNED_INT) ∧
      (norm = false →
        (tr.conversion rule).componentType ≠ GL_SIGNED_NORMALIZED ∧
        (tr.conversion rule).componentType ≠ GL_UNSIGNED_NORMALIZED) ∧
      (t = GL_UNSIGNED_BYTE ∨ t = GL_UNSIGNED_SHORT →
        (tr.conversion rule).componentType ≠ GL_INT ∧
        (tr.conversion rule).componentType ≠ GL_SIGNED_NORMALIZED) ∧
      (t = GL_BYTE ∨ t = GL_SHORT ∨ t = GL_FIXED ∨ t = GL_FLOAT →
        (tr.conversion rule).componentType ≠ GL_UNSIGNED_INT ∧
        (tr.conversion rule).componentType ≠ GL_UNSIGNED_NORMALIZED) := by
  have hkey : IsAttributeKey ⟨t, norm, n, p⟩ := ⟨ht, hn⟩
  obtain ⟨tr, htr⟩ := Option.isSome_iff_exists.mp (key_index _ hkey).2.2.2.2
  have hQ : ∀ tr ∈ keyTranslation ⟨t, norm, n, p⟩,
      (norm = true →
        (tr.conversion rule).componentType ≠ GL_INT ∧
        (tr.conversion rule).componentType ≠ GL_UNSIGNED_INT) ∧
      (norm = false →
        (tr.conversion rule).componentType ≠ GL_SIGNED_NORMALIZED ∧
        (tr.conversion rule).componentType ≠ GL_UNSIGNED_NORMALIZED) ∧
      (t = GL_UNSIGNED_BYTE ∨ t = GL_UNSIGNED_SHORT →
        (tr.conversion rule).componentType ≠ GL_INT ∧
        (tr.conversion rule).componentType ≠ GL_SIGNED_NORMALIZED) ∧
      (t = GL_BYTE ∨ t = GL_SHORT ∨ t = GL_FIXED ∨ t = GL_FLOAT →
        (tr.conversion rule).componentType ≠ GL_UNSIGNED_INT ∧
        (tr.conversion rule).componentType ≠ GL_UNSIGNED_NORMALIZED) := by
    rcases mem_vertexAttribTypes ht with rfl | rfl | rfl | rfl | rfl | rfl <;>
      rcases mem_componentCounts hn with rfl | rfl | rfl | rfl <;> cases norm <;>
      cases rule <;> (unfold keyTranslation; dsimp only; decide)
  exact ⟨tr, htr, hQ tr htr⟩

/-- C24, at an input: the preferred resolution of (unsigned short, normalized, 2
components). -/
theorem component_type_consistent_with_key_witness :
    GL_UNSIGNED_SHORT ∈ vertexAttribTypes ∧ 2 ∈ componentCounts ∧
    ∃ tr, keyTranslation ⟨GL_UNSIGNED_SHORT, true, 2, false⟩ = some tr ∧
      (true = true →
        (tr.conversion .UsePreferred).componentType ≠ GL_INT ∧
        (tr.conversion .UsePreferred).componentType ≠ GL_UNSIGNED_INT) ∧
      (true = false →
        (tr.conversion .UsePreferred).componentType ≠ GL_SIGNED_NORMALIZED ∧
        (tr.conversion .UsePreferred).componentType ≠ GL_UNSIGNED_NORMALIZED) ∧
      (GL_UNSIGNED_SHORT = GL_UNSIGNED_BYTE ∨ GL_UNSIGNED_SHORT = GL_UNSIGNED_SHORT →
        (tr.conversion .UsePreferred).componentType ≠ GL_INT ∧
        (tr.conversion .UsePreferred).componentType ≠ GL_SIGNED_NORMALIZED) ∧
      (GL_UNSIGNED_SHORT = GL_BYTE ∨ GL_UNSIGNED_SHORT = GL_SHORT ∨
          GL_UNSIGNED_SHORT = GL_FIXED ∨ GL_UNSIGNED_SHORT = GL_FLOAT →
        (tr.conversion .UsePreferred).componentType ≠ GL_UNSIGNED_INT ∧
        (tr.conversion .UsePreferred).componentType ≠ GL_UNSIGNED_NORMALIZED) :=
  ⟨by decide, by decide,
    component_type_consistent_with_key GL_UNSIGNED_SHORT (by decide) true 2 (by decide) false
      .UsePreferred⟩

/-- C25: for every key and both rules, the descriptor's `outputElementSize` is a multiple of 4
and is one of 4, 8, 12 and 16. -/
theorem output_size_multiple_of_four (t : GLenum) (ht : t ∈ vertexAttribTypes) (norm : Bool)
    (n : Nat) (hn : n ∈ componentCounts) (p : Bool) (rule : PreferenceRule) :
    ∃ tr, keyTranslation ⟨t, norm, n, p⟩ = some tr ∧
      (tr.conversion rule).outputElementSize % 4 = 0 ∧
      (tr.conversion rule).outputElementSize ∈ [4, 8, 12, 16] := by
  have hkey : IsAttributeKey ⟨t, norm, n, p⟩ := ⟨ht, hn⟩
  obtain ⟨tr, htr⟩ := Option.isSome_iff_exists.mp (key_index _ hkey).2.2.2.2
  have hQ : ∀ tr ∈ keyTranslation ⟨t, norm, n, p⟩,
      (tr.conversion rule).outputElementSize % 4 = 0 ∧
      (tr.conversion rule).outputElementSize ∈ [4, 8, 12, 16] := by
    rcases mem_vertexAttribTypes ht with rfl | rfl | rfl | rfl | rfl | rfl <;>
      rcases mem_componentCounts hn with rfl | rfl | rfl | rfl <;> cases norm <;>
      cases rule <;> (unfold keyTranslation; dsimp only; decide)
  exact ⟨tr, htr, hQ tr htr⟩

/-- C25, at an input: the preferred resolution of (byte, not normalized, 3 components), a
four-component short of 8 bytes. -/
theorem output_size_multiple_of_four_witness :
    GL_BYTE ∈ vertexAttribTypes ∧ 3 ∈ componentCounts ∧
    ∃ tr, keyTranslation ⟨GL_BYTE, false, 3, false⟩ = some tr ∧
      (tr.conversion .UsePreferred).outputElementSize % 4 = 0 ∧
      (tr.conversion .UsePreferred).outputElementSize ∈ [4, 8, 12, 16] :=
  ⟨by decide, by decide,
    output_size_multiple_of_four GL_BYTE (by decide) false 3 (by decide) false .UsePreferred⟩

/-- The table of a reachable cache state: either the process has not rebuilt yet (the cached
bitmask is 0 and the table is the initial one), or every element inside the array bounds holds
the conversion selected for the cached bitmask. -/
theorem reachable_table (s : StaticState) (hs : Reachable s) :
    (s.initializedDeclTypes = 0 ∧
      s.formatConverters = StaticState.initial.formatConverters) ∨
    ∀ i j k, i < NUM_GL_VERTEX_ATTRIB_TYPES → j < 2 → k < 4 →
      ∃ tr, translationsAt i j k = some tr ∧
        s.formatConverters i j k = selectConversion s.initializedDeclTypes tr := by
  induction hs with
  | initial => exact Or.inl ⟨rfl, rfl⟩
  | call s b vf _ ih =>
    by_cases h : s.initializedDeclTypes = b
    · rw [GetVertexFormatInfo_of_eq s b vf h]
      exact ih
    · rw [GetVertexFormatInfo_of_ne s b vf h]
      right
      intro i j k hi hj hk
      exact rebuild_apply_of_lt b s.formatConverters i j k hi hj hk

/-- Inside the array bounds the rebuilt table does not depend on what the table held before. -/
theorem rebuild_independent_of_old (b : DWORD) (fc fc' : FormatConverters) (i j k : Nat)
    (hi : i < NUM_GL_VERTEX_ATTRIB_TYPES) (hj : j < 2) (hk : k < 4) :
    rebuildFormatConverters b fc i j k = rebuildFormatConverters b fc' i j k := by
  obtain ⟨tr, htr, h⟩ := rebuild_apply_of_lt b fc i j k hi hj hk
  obtain ⟨tr', htr', h'⟩ := rebuild_apply_of_lt b fc' i j k hi hj hk
  rw [htr] at htr'
  cases htr'
  rw [h, h']

/-- C22: in every reachable cache state, if the cached bitmask is non-zero then each of the 48
elements of the cached table equals the element of the table built for the cached bitmask
(over any previous contents); for every non-zero bitmask and every key the descriptor a call
returns is the one of the table built for that bitmask, so it does not depend on the earlier
calls; and after a call that rebuilds, each of the 48 elements is the rebuilt one, whatever the
table held before. -/
theorem cached_table_is_rebuild_for_cached_bitmask (s : StaticState) (hs : Reachable s) :
    (s.initializedDeclTypes ≠ 0 →
      ∀ i j k, i < NUM_GL_VERTEX_ATTRIB_TYPES → j < 2 → k < 4 → ∀ fc : FormatConverters,
        s.formatConverters i j k = rebuildFormatConverters s.initializedDeclTypes fc i j k) ∧
    (∀ b : DWORD, b ≠ 0 → ∀ vf, IsAttributeKey vf → ∀ fc : FormatConverters,
      (GetVertexFormatInfo s b vf).1 = (rebuildFormatConverters b fc).lookup vf) ∧
    (∀ (b : DWORD) (vf : GLVertexFormat), b ≠ s.initializedDeclTypes →
      ∀ i j k, i < NUM_GL_VERTEX_ATTRIB_TYPES → j < 2 → k < 4 → ∀ fc : FormatConverters,
        (GetVertexFormatInfo s b vf).2.formatConverters i j k =
          rebuildFormatConverters b fc i j k) := by
  have h1 : s.initializedDeclTypes ≠ 0 →
      ∀ i j k, i < NUM_GL_VERTEX_ATTRIB_TYPES → j < 2 → k < 4 → ∀ fc : FormatConverters,
        s.formatConverters i j k = rebuildFormatConverters s.initializedDeclTypes fc i j k := by
    intro hnz i j k hi hj hk fc
    rcases reachable_table s hs with ⟨h0, -⟩ | h
    · exact absurd h0 hnz
    · obtain ⟨tr, htr, hcell⟩ := h i j k hi hj hk
      obtain ⟨tr', htr', hcell'⟩ :=
        rebuild_apply_of_lt s.initializedDeclTypes fc i j k hi hj hk
      rw [htr] at htr'
      cases htr'
      rw [hcell, hcell']
  refine ⟨h1, ?_, ?_⟩
  · intro b hb vf hkey fc
    by_cases h : s.initializedDeclTypes = b
    · rw [GetVertexFormatInfo_of_eq s b vf h]
      obtain ⟨hi, hj, hidx, hk, -⟩ := key_index vf hkey
      unfold FormatConverters.lookup
      rw [hidx, ← h]
      exact h1 (h ▸ hb) _ _ _ hi hj hk fc
    · rw [GetVertexFormatInfo_of_ne s b vf h]
      obtain ⟨hi, hj, hidx, hk, -⟩ := key_index vf hkey
      unfold FormatConverters.lookup
      rw [hidx]
      exact rebuild_independent_of_old b _ _ _ _ _ hi hj hk
  · intro b vf hb i j k hi hj hk fc
    rw [GetVertexFormatInfo_of_ne s b vf (Ne.symm hb)]
    exact rebuild_independent_of_old b _ _ i j k hi hj hk

/-- C22, at an input: the state a first call with the bitmask `D3DDTCAPS_SHORT2N` leaves. -/
theorem cached_table_is_rebuild_for_cached_bitmask_witness :
    Reachable
      (GetVertexFormatInfo StaticState.initial D3DDTCAPS_SHORT2N ⟨GL_FLOAT, false, 1, false⟩).2 ∧
    ((GetVertexFormatInfo StaticState.initial D3DDTCAPS_SHORT2N
        ⟨GL_FLOAT, false, 1, false⟩).2.initializedDeclTypes ≠ 0 →
      ∀ i j k, i < NUM_GL_VERTEX_ATTRIB_TYPES → j < 2 → k < 4 → ∀ fc : FormatConverters,
        (GetVertexFormatInfo StaticState.initial D3DDTCAPS_SHORT2N
            ⟨GL_FLOAT, false, 1, false⟩).2.formatConverters i j k =
          rebuildFormatConverters
            (GetVertexFormatInfo StaticState.initial D3DDTCAPS_SHORT2N
              ⟨GL_FLOAT, false, 1, false⟩).2.initializedDeclTypes fc i j k) ∧
    (∀ b : DWORD, b ≠ 0 → ∀ vf, IsAttributeKey vf → ∀ fc : FormatConverters,
      (GetVertexFormatInfo
          (GetVertexFormatInfo StaticState.initial D3DDTCAPS_SHORT2N
            ⟨GL_FLOAT, false, 1, false⟩).2 b vf).1 =
        (rebuildFormatConverters b fc).lookup vf) ∧
    (∀ (b : DWORD) (vf : GLVertexFormat),
      b ≠ (GetVertexFormatInfo StaticState.initial D3DDTCAPS_SHORT2N
        ⟨GL_FLOAT, false, 1, false⟩).2.initializedDeclTypes →
      ∀ i j k, i < NUM_GL_VERTEX_ATTRIB_TYPES → j < 2 → k < 4 → ∀ fc : FormatConverters,
        (GetVertexFormatInfo
            (GetVertexFormatInfo StaticState.initial D3DDTCAPS_SHORT2N
              ⟨GL_FLOAT, false, 1, false⟩).2 b vf).2.formatConverters i j k =
          rebuildFormatConverters b fc i j k) :=
  ⟨Reachable.call _ _ _ Reachable.initial,
    cached_table_is_rebuild_for_cached_bitmask _ (Reachable.call _ _ _ Reachable.initial)⟩

/-- A capability flag that shares a bit with a bitmask shares one with every bitmask that has
all the bits of the first. -/
theorem land_ne_zero_of_subset (b b' cap : Nat) (hsub : b &&& b' = b)
    (h : (b &&& cap) ≠ 0) : (b' &&& cap) ≠ 0 := by
  intro h0
  apply h
  rw [← hsub, Nat.and_assoc, h0, Nat.and_zero]

/-- Every capability flag stored in `translations` is 0 or has a bit among the 32 of a
`DWORD`. -/
theorem keyTranslation_capsFlag_all_bits (vf : GLVertexFormat) (hkey : IsAttributeKey vf) :
    ∀ tr ∈ keyTranslation vf, tr.capsFlag = 0 ∨ (0xFFFFFFFF &&& tr.capsFlag) ≠ 0 := by
  revert vf
  apply forall_attributeKey
  intro t ht norm n hn p
  rcases mem_vertexAttribTypes ht with rfl | rfl | rfl | rfl | rfl | rfl <;>
    rcases mem_componentCounts hn with rfl | rfl | rfl | rfl <;> cases norm <;>
    (unfold keyTranslation; dsimp only; decide)

/-- C23: when every bit of the bitmask `b` is set in `b'` (`b AND b' = b`), for every key: if
the selection test of the loop holds for `b` it holds for `b'`, and if the table built for `b`
holds the key's preferred descriptor so does the table built for `b'`; the table built for the
bitmask with all 32 bits set holds the preferred descriptor of every key, and the table built
for the bitmask 0 holds the fallback descriptor of every key whose capability flag is
non-zero. -/
theorem selection_monotone_in_bitmask (b b' : DWORD) (hsub : b &&& b' = b)
    (vf : GLVertexFormat) (hkey : IsAttributeKey vf) (fc fc' : FormatConverters) :
    ∃ tr, keyTranslation vf = some tr ∧
      (tr.capsFlag = 0 ∨ (b &&& tr.capsFlag) ≠ 0 →
        tr.capsFlag = 0 ∨ (b' &&& tr.capsFlag) ≠ 0) ∧
      ((rebuildFormatConverters b fc).lookup vf = tr.preferredConversion →
        (rebuildFormatConverters b' fc').lookup vf = tr.preferredConversion) ∧
      (rebuildFormatConverters 0xFFFFFFFF fc).lookup vf = tr.preferredConversion ∧
      (tr.capsFlag ≠ 0 →
        (rebuildFormatConverters 0 fc).lookup vf = tr.fallbackConversion) := by
  obtain ⟨tr, htr⟩ := Option.isSome_iff_exists.mp (key_index vf hkey).2.2.2.2
  have hmono : tr.capsFlag = 0 ∨ (b &&& tr.capsFlag) ≠ 0 →
      tr.capsFlag = 0 ∨ (b' &&& tr.capsFlag) ≠ 0 := by
    intro h
    rcases h with h | h
    · exact Or.inl h
    · exact Or.inr (land_ne_zero_of_subset b b' tr.capsFlag hsub h)
  have hall := keyTranslation_capsFlag_all_bits vf hkey
  refine ⟨tr, htr, hmono, ?_, ?_, ?_⟩
  · rw [rebuild_key b fc vf hkey tr htr, rebuild_key b' fc' vf hkey tr htr]
    unfold selectConversion
    intro h
    by_cases hc : tr.capsFlag = 0 ∨ (b &&& tr.capsFlag) ≠ 0
    · rw [if_pos (hmono hc)]
    · rw [if_neg hc] at h
      by_cases hc' : tr.capsFlag = 0 ∨ (b' &&& tr.capsFlag) ≠ 0
      · rw [if_pos hc']
      · rw [if_neg hc']
        exact h
  · rw [rebuild_key _ fc vf hkey tr htr]
    unfold selectConversion
    rw [if_pos (hall tr htr)]
  · intro hnz
    rw [rebuild_key _ fc vf hkey tr htr]
    unfold selectConversion
    rw [if_neg]
    intro h
    rcases h with h | h
    · exact hnz h
    · exact h (Nat.zero_and _)

/-- C23, at an input: the bitmasks `D3DDTCAPS_SHORT2N` and all six capability bits, at the key
(short, normalized, 2 components). -/
theorem selection_monotone_in_bitmask_witness :
    D3DDTCAPS_SHORT2N &&& 0x3F = D3DDTCAPS_SHORT2N ∧
    IsAttributeKey ⟨GL_SHORT, true, 2, false⟩ ∧
    ∃ tr, keyTranslation ⟨GL_SHORT, true, 2, false⟩ = some tr ∧
      (tr.capsFlag = 0 ∨ (D3DDTCAPS_SHORT2N &&& tr.capsFlag) ≠ 0 →
        tr.capsFlag = 0 ∨ (0x3F &&& tr.capsFlag) ≠ 0) ∧
      ((rebuildFormatConverters D3DDTCAPS_SHORT2N StaticState.initial.formatConverters).lookup
          ⟨GL_SHORT, true, 2, false⟩ = tr.preferredConversion →
        (rebuildFormatConverters 0x3F StaticState.initial.formatConverters).lookup
          ⟨GL_SHORT, true, 2, false⟩ = tr.preferredConversion) ∧
      (rebuildFormatConverters 0xFFFFFFFF StaticState.initial.formatConverters).lookup
        ⟨GL_SHORT, true, 2, false⟩ = tr.preferredConversion ∧
      (tr.capsFlag ≠ 0 →
        (rebuildFormatConverters 0 StaticState.initial.formatConverters).lookup
          ⟨GL_SHORT, true, 2, false⟩ = tr.fallbackConversion) :=
  ⟨by decide, by decide,
    selection_monotone_in_bitmask D3DDTCAPS_SHORT2N 0x3F (by decide)
      ⟨GL_SHORT, true, 2, false⟩ (by decide) StaticState.initial.formatConverters
      StaticState.initial.formatConverters⟩

/-- The element of the rebuilt table that a key reads, in terms of the macro instantiations of
the key's own type, flag and count: the `TRANSLATION` of the preferred rule when the capability
flag of the preferred `Converter` is 0 or shares a bit with the bitmask, the `TRANSLATION` of
the fallback rule otherwise. -/
theorem rebuild_lookup_own_translation (b : DWORD) (fc : FormatConverters)
    (vf : GLVertexFormat) (hkey : IsAttributeKey vf) :
    ∃ cp pref fb,
      Converter vf.type (if vf.type = GL_FIXED ∨ vf.type = GL_FLOAT then false else vf.normalized)
        vf.components .UsePreferred = some cp ∧
      TRANSLATION vf.type
        (if vf.type = GL_FIXED ∨ vf.type = GL_FLOAT then false else vf.normalized)
        vf.components .UsePreferred = some pref ∧
      TRANSLATION vf.type
        (if vf.type = GL_FIXED ∨ vf.type = GL_FLOAT then false else vf.normalized)
        vf.components .UseFallback = some fb ∧
      keyTranslation vf =
        some { capsFlag := cp.capflag, preferredConversion := pref, fallbackConversion := fb } ∧
      (rebuildFormatConverters b fc).lookup vf =
        (if cp.capflag = 0 ∨ (b &&& cp.capflag) ≠ 0 then pref else fb) := by
  have hrow : (if vf.type = GL_FIXED ∨ vf.type = GL_FLOAT then false else vf.normalized) =
      rowNormalized vf.type vf.normalized := rfl
  rw [hrow]
  obtain ⟨cp, hp⟩ := Option.isSome_iff_exists.mp
    (Converter_isSome vf.type hkey.1 (rowNormalized vf.type vf.normalized) vf.components hkey.2
      .UsePreferred)
  obtain ⟨cf, hf⟩ := Option.isSome_iff_exists.mp
    (Converter_isSome vf.type hkey.1 (rowNormalized vf.type vf.normalized) vf.components hkey.2
      .UseFallback)
  have htr := keyTranslation_eq vf hkey
  rw [hrow, TRANSLATION_FOR_TYPE_NORM_SIZE_eq _ _ _ cp cf hp hf] at htr
  refine ⟨cp, _, _, hp, ?_, ?_, htr, ?_⟩
  · unfold TRANSLATION
    rw [hp]
    rfl
  · unfold TRANSLATION
    rw [hf]
    rfl
  · rw [rebuild_key b fc vf hkey _ htr]
    rfl

/-- C2: when the bitmask `b` differs from the cached one, `GetVertexFormatInfo s b key` rebuilds
the table and leaves `b` as the cached bitmask. The descriptor it returns is, for the key's own
type, count and flag (the flag `false` in the rows of fixed and float), the `TRANSLATION` of
the preferred rule when the capability flag of the preferred `Converter` is 0 or has a bit in
common with `b`, and the `TRANSLATION` of the fallback rule otherwise; the three form the
key's element of `translations`. The new table is the rebuilt one: each of its 48 elements is
the conversion selected for `b` from the same element of `translations`, and every key reads
from it the selection among its own two `TRANSLATION` descriptors. -/
theorem getVertexFormatInfo_rebuild (s : StaticState) (b : DWORD) (vf : GLVertexFormat)
    (hkey : IsAttributeKey vf) (hb : b ≠ s.initializedDeclTypes) :
    ∃ tr cp pref fb,
      Converter vf.type (if vf.type = GL_FIXED ∨ vf.type = GL_FLOAT then false else vf.normalized)
        vf.components .UsePreferred = some cp ∧
      TRANSLATION vf.type
        (if vf.type = GL_FIXED ∨ vf.type = GL_FLOAT then false else vf.normalized)
        vf.components .UsePreferred = some pref ∧
      TRANSLATION vf.type
        (if vf.type = GL_FIXED ∨ vf.type = GL_FLOAT then false else vf.normalized)
        vf.components .UseFallback = some fb ∧
      tr = { capsFlag := cp.capflag, preferredConversion := pref, fallbackConversion := fb } ∧
      keyTranslation vf = some tr ∧
      (GetVertexFormatInfo s b vf).1 =
        (if cp.capflag = 0 ∨ (b &&& cp.capflag) ≠ 0 then pref else fb) ∧
      (GetVertexFormatInfo s b vf).1 =
        (if tr.capsFlag = 0 ∨ (b &&& tr.capsFlag) ≠ 0 then tr.preferredConversion
         else tr.fallbackConversion) ∧
      (GetVertexFormatInfo s b vf).2.initializedDeclTypes = b ∧
      (GetVertexFormatInfo s b vf).2.formatConverters =
        rebuildFormatConverters b s.formatConverters ∧
      (∀ i j k, i < NUM_GL_VERTEX_ATTRIB_TYPES → j < 2 → k < 4 →
        ∃ tr', translationsAt i j k = some tr' ∧
          (GetVertexFormatInfo s b vf).2.formatConverters i j k =
            (if tr'.capsFlag = 0 ∨ (b &&& tr'.capsFlag) ≠ 0 then tr'.preferredConversion
             else tr'.fallbackConversion)) ∧
      ∀ vf', IsAttributeKey vf' →
        ∃ cp' pref' fb',
          Converter vf'.type
            (if vf'.type = GL_FIXED ∨ vf'.type = GL_FLOAT then false else vf'.normalized)
            vf'.components .UsePreferred = some cp' ∧
          TRANSLATION vf'.type
            (if vf'.type = GL_FIXED ∨ vf'.type = GL_FLOAT then false else vf'.normalized)
            vf'.components .UsePreferred = some pref' ∧
          TRANSLATION vf'.type
            (if vf'.type = GL_FIXED ∨ vf'.type = GL_FLOAT then false else vf'.normalized)
            vf'.components .UseFallback = some fb' ∧
          (GetVertexFormatInfo s b vf).2.formatConverters.lookup vf' =
            (if cp'.capflag = 0 ∨ (b &&& cp'.capflag) ≠ 0 then pref' else fb') := by
  obtain ⟨cp, pref, fb, hcp, hpref, hfb, htr, hlook⟩ :=
    rebuild_lookup_own_translation b s.formatConverters vf hkey
  have hG := GetVertexFormatInfo_of_ne s b vf (Ne.symm hb)
  refine ⟨_, cp, pref, fb, hcp, hpref, hfb, rfl, htr, ?_, ?_, ?_, ?_, ?_, ?_⟩
  · rw [hG]
    exact hlook
  · rw [hG]
    exact hlook
  · rw [hG]
  · rw [hG]
  · intro i j k hi hj hk
    rw [hG]
    exact rebuild_apply_of_lt b s.formatConverters i j k hi hj hk
  · intro vf' hkey'
    obtain ⟨cp', pref', fb', hcp', hpref', hfb', -, hlook'⟩ :=
      rebuild_lookup_own_translation b s.formatConverters vf' hkey'
    rw [hG]
    exact ⟨cp', pref', fb', hcp', hpref', hfb', hlook'⟩

/-- C2, at an input: the first call of the process, with the six capability bits set and the
key (byte, not normalized, 1 component), which is served the two-component short descriptor of
its own row. -/
theorem getVertexFormatInfo_rebuild_witness :
    IsAttributeKey ⟨GL_BYTE, false, 1, false⟩ ∧
    (0x3F : DWORD) ≠ StaticState.initial.initializedDeclTypes ∧
    (∃ tr cp pref fb,
      Converter GL_BYTE (if GL_BYTE = GL_FIXED ∨ GL_BYTE = GL_FLOAT then false else false) 1
        .UsePreferred = some cp ∧
      TRANSLATION GL_BYTE (if GL_BYTE = GL_FIXED ∨ GL_BYTE = GL_FLOAT then false else false) 1
        .UsePreferred = some pref ∧
      TRANSLATION GL_BYTE (if GL_BYTE = GL_FIXED ∨ GL_BYTE = GL_FLOAT then false else false) 1
        .UseFallback = some fb ∧
      tr = { capsFlag := cp.capflag, preferredConversion := pref, fallbackConversion := fb } ∧
      keyTranslation ⟨GL_BYTE, false, 1, false⟩ = some tr ∧
      (GetVertexFormatInfo StaticState.initial 0x3F ⟨GL_BYTE, false, 1, false⟩).1 =
        (if cp.capflag = 0 ∨ (0x3F &&& cp.capflag) ≠ 0 then pref else fb) ∧
      (GetVertexFormatInfo StaticState.initial 0x3F ⟨GL_BYTE, false, 1, false⟩).1 =
        (if tr.capsFlag = 0 ∨ (0x3F &&& tr.capsFlag) ≠ 0 then tr.preferredConversion
         else tr.fallbackConversion) ∧
      (GetVertexFormatInfo StaticState.initial 0x3F
        ⟨GL_BYTE, false, 1, false⟩).2.initializedDeclTypes = 0x3F ∧
      (GetVertexFormatInfo StaticState.initial 0x3F
          ⟨GL_BYTE, false, 1, false⟩).2.formatConverters =
        rebuildFormatConverters 0x3F StaticState.initial.formatConverters ∧
      (∀ i j k, i < NUM_GL_VERTEX_ATTRIB_TYPES → j < 2 → k < 4 →
        ∃ tr', translationsAt i j k = some tr' ∧
          (GetVertexFormatInfo StaticState.initial 0x3F
              ⟨GL_BYTE, false, 1, false⟩).2.formatConverters i j k =
            (if tr'.capsFlag = 0 ∨ (0x3F &&& tr'.capsFlag) ≠ 0 then tr'.preferredConversion
             else tr'.fallbackConversion)) ∧
      ∀ vf', IsAttributeKey vf' →
        ∃ cp' pref' fb',
          Converter vf'.type
            (if vf'.type = GL_FIXED ∨ vf'.type = GL_FLOAT then false else vf'.normalized)
            vf'.components .UsePreferred = some cp' ∧
          TRANSLATION vf'.type
            (if vf'.type = GL_FIXED ∨ vf'.type = GL_FLOAT then false else vf'.normalized)
            vf'.components .UsePreferred = some pref' ∧
          TRANSLATION vf'.type
            (if vf'.type = GL_FIXED ∨ vf'.type = GL_FLOAT then false else vf'.normalized)
            vf'.components .UseFallback = some fb' ∧
          (GetVertexFormatInfo StaticState.initial 0x3F
              ⟨GL_BYTE, false, 1, false⟩).2.formatConverters.lookup vf' =
            (if cp'.capflag = 0 ∨ (0x3F &&& cp'.capflag) ≠ 0 then pref' else fb')) ∧
    (GetVertexFormatInfo StaticState.initial 0x3F
      ⟨GL_BYTE, false, 1, false⟩).1.nativeFormat = D3DDECLTYPE_SHORT2 :=
  ⟨by decide, by decide,
    getVertexFormatInfo_rebuild StaticState.initial 0x3F ⟨GL_BYTE, false, 1, false⟩
      (by decide) (by decide),
    by decide⟩

end d3d9
